import Mathlib

/-!
# exrheader: printing the header of an OpenEXR file

A shallow embedding of `src/bin/exrheader/main.cpp`.

The program writes to the global stream `cout`.  The stream is modelled by the
text written so far together with the two pieces of formatting state the
program touches: the fill character (`setfill`) and the numeric base
(`setbase`, `hex`, `dec`).  The field width is not kept in the state: every
`setw (2)` of the source is consumed by the integer inserted right after it,
so `setw (2) << v` is one operation (`putIntW`).  Padding is always on the
left: no statement of the program selects `left` or `internal` adjustment,
so both preprocessor variants of `printTimeCode` write the same text.

Values of the C++ types `int` and `unsigned int` are `Int` and `Nat`.
Floating-point values, and the library functions whose code is not part of
the program, are parameters collected in `Lib`.
-/

namespace ExrHeader

/-! ## The output stream -/

/-- The `basefield` flags of a stream. `unset` is what `setbase` leaves for an
argument other than 8, 10 and 16; integers are then written in decimal. -/
inductive Basefield where
  | dec
  | oct
  | hex
  | unset
  deriving DecidableEq, Repr

/-- An output stream: the text written so far, the fill character and the
numeric base. -/
structure OStream where
  out : String
  fill : Char
  basefield : Basefield
  deriving DecidableEq, Repr

/-- The state of `cout` when the program starts: nothing written, fill
character blank, decimal base. -/
def cout0 : OStream := { out := "", fill := ' ', basefield := Basefield.dec }

/-- Digits of a natural number in the given radix. -/
def digits (radix : Nat) (v : Nat) : String := String.mk (Nat.toDigits radix v)

/-- Text of an `unsigned int` in the stream's base. -/
def fmtUInt (b : Basefield) (v : Nat) : String :=
  match b with
  | Basefield.hex => digits 16 v
  | Basefield.oct => digits 8 v
  | _ => digits 10 v

/-- An integer as a signed decimal numeral. -/
def decimal (v : Int) : String :=
  if v < 0 then "-" ++ digits 10 v.natAbs else digits 10 v.toNat

/-- Text of an `int` in the stream's base: signed in decimal, the 32-bit
two's complement pattern in hexadecimal and octal. -/
def fmtInt (b : Basefield) (v : Int) : String :=
  match b with
  | Basefield.hex => digits 16 (v % 2 ^ 32).toNat
  | Basefield.oct => digits 8 (v % 2 ^ 32).toNat
  | _ => decimal v

/-- Padding of a field to width `w` with the fill character, on the left. -/
def padLeft (fill : Char) (w : Nat) (t : String) : String :=
  String.mk (List.replicate (w - t.length) fill) ++ t

/-- Insertion of text (a string literal, a `std::string`, a character). -/
def put (t : String) (s : OStream) : OStream := { s with out := s.out ++ t }

/-- Insertion of an `int`. -/
def putInt (v : Int) (s : OStream) : OStream := put (fmtInt s.basefield v) s

/-- Insertion of an `unsigned int`. -/
def putUInt (v : Nat) (s : OStream) : OStream := put (fmtUInt s.basefield v) s

/-- Insertion of a `bool` (no `boolalpha`): `1` or `0`. -/
def putBool (b : Bool) (s : OStream) : OStream := put (if b then "1" else "0") s

/-- The pair `setw (w) << v` for an `int` `v`. -/
def putIntW (w : Nat) (v : Int) (s : OStream) : OStream :=
  put (padLeft s.fill w (fmtInt s.basefield v)) s

/-- The manipulator `setfill (c)`. -/
def setfill (c : Char) (s : OStream) : OStream := { s with fill := c }

/-- The manipulator `setbase (n)`. -/
def setbase (n : Int) (s : OStream) : OStream :=
  { s with basefield :=
      if n = 8 then Basefield.oct
      else if n = 10 then Basefield.dec
      else if n = 16 then Basefield.hex
      else Basefield.unset }

/-- The manipulator `hex`. -/
def hex (s : OStream) : OStream := { s with basefield := Basefield.hex }

/-- The manipulator `dec`. -/
def dec (s : OStream) : OStream := { s with basefield := Basefield.dec }

/-! ## What the program takes from the OpenEXR and Imath libraries -/

/-- The library functions and types the program uses whose code is outside the
program: the floating-point types with their text at the stream's default
precision, the conversion of a rational to `double`, the compression
descriptions, the accessors of the version word and the version strings. -/
structure Lib where
  F : Type
  D : Type
  showF : F → String
  showD : D → String
  rationalToDouble : Int → Nat → D
  getCompressionDescriptionFromId : Int → String
  getVersion : Int → Int
  getFlags : Int → Int
  OPENEXR_VERSION_STRING : String
  getLibraryVersion : String

/-- Modelled from the spec: the enumerators of `LineOrder` (declared in
ImfLineOrder.h, outside src/), the scan-line order domain of the data model. -/
def INCREASING_Y : Int := 0

/-- Modelled from the spec: second enumerator of `LineOrder` (ImfLineOrder.h). -/
def DECREASING_Y : Int := 1

/-- Modelled from the spec: third enumerator of `LineOrder` (ImfLineOrder.h). -/
def RANDOM_Y : Int := 2

/-- Modelled from the spec: the enumerators of `PixelType` (declared in
ImfPixelType.h, outside src/), the pixel encoding domain of the data model. -/
def UINT : Int := 0

/-- Modelled from the spec: second enumerator of `PixelType` (ImfPixelType.h). -/
def HALF : Int := 1

/-- Modelled from the spec: third enumerator of `PixelType` (ImfPixelType.h). -/
def FLOAT : Int := 2

/-- Modelled from the spec: the enumerators of `LevelMode` (declared in
ImfTileDescription.h, outside src/), the mip/rip level mode of the data model. -/
def ONE_LEVEL : Int := 0

/-- Modelled from the spec: second enumerator of `LevelMode`. -/
def MIPMAP_LEVELS : Int := 1

/-- Modelled from the spec: third enumerator of `LevelMode`. -/
def RIPMAP_LEVELS : Int := 2

/-- Modelled from the spec: the enumerators of `LevelRoundingMode` (declared in
ImfTileDescription.h, outside src/), the rounding mode of the data model. -/
def ROUND_DOWN : Int := 0

/-- Modelled from the spec: second enumerator of `LevelRoundingMode`. -/
def ROUND_UP : Int := 1

/-- Modelled from the spec: the enumerators of `Envmap` (declared in
ImfEnvmap.h, outside src/), the environment-map projection of the data model. -/
def ENVMAP_LATLONG : Int := 0

/-- Modelled from the spec: second enumerator of `Envmap`. -/
def ENVMAP_CUBE : Int := 1

/-- A vector of two components (`Imath::Vec2`). -/
structure V2 (α : Type) where
  x : α
  y : α

/-- A vector of three components (`Imath::Vec3`). -/
structure V3 (α : Type) where
  x : α
  y : α
  z : α

/-- Modelled from the spec: the coordinate pair's own rendering, the stream
insertion of `Imath::Vec2<int>` (ImathVec.h, outside src/):
`s << '(' << v.x << ' ' << v.y << ')'`. -/
def putV2i (v : V2 Int) (s : OStream) : OStream :=
  s |> put "(" |> putInt v.x |> put " " |> putInt v.y |> put ")"

/-- Modelled from the spec: the stream insertion of `Imath::Vec2<float>`
(ImathVec.h, outside src/). -/
def putV2f (L : Lib) (v : V2 L.F) (s : OStream) : OStream :=
  s |> put "(" |> put (L.showF v.x) |> put " " |> put (L.showF v.y) |> put ")"

/-- Modelled from the spec: the stream insertion of `Imath::Vec3<int>`
(ImathVec.h, outside src/). -/
def putV3i (v : V3 Int) (s : OStream) : OStream :=
  s |> put "(" |> putInt v.x |> put " " |> putInt v.y |> put " " |> putInt v.z |> put ")"

/-- Modelled from the spec: the stream insertion of `Imath::Vec3<float>`
(ImathVec.h, outside src/). -/
def putV3f (L : Lib) (v : V3 L.F) (s : OStream) : OStream :=
  s |> put "(" |> put (L.showF v.x) |> put " " |> put (L.showF v.y) |> put " "
    |> put (L.showF v.z) |> put ")"

/-! ## The data model -/

/-- One channel of a channel list. -/
structure Channel where
  type : Int
  xSampling : Int
  ySampling : Int
  pLinear : Bool

/-- The values the accessors of a `KeyCode` return. -/
structure KeyCode where
  filmMfcCode : Int
  filmType : Int
  prefixCode : Int
  count : Int
  perfOffset : Int
  perfsPerFrame : Int
  perfsPerCount : Int

/-- The values the accessors of a `TimeCode` return. -/
structure TimeCode where
  hours : Int
  minutes : Int
  seconds : Int
  frame : Int
  dropFrame : Bool
  colorFrame : Bool
  fieldPhase : Bool
  bgf0 : Bool
  bgf1 : Bool
  bgf2 : Bool
  userData : Nat

/-- A tile description. -/
structure TileDescription where
  xSize : Nat
  ySize : Nat
  mode : Int
  roundingMode : Int

/-- The concrete kind of an attribute together with its value: one
constructor for each class the dispatch of `printInfo` casts to, and
`unrecognised` for an attribute of any other class. -/
inductive AttrValue (L : Lib) where
  | box2i (min max : V2 Int)
  | box2f (min max : V2 L.F)
  | chlist (cl : List (String × Channel))
  | chromaticities (red green blue white : V2 L.F)
  | compression (c : Int)
  | double (d : L.D)
  | envmap (e : Int)
  | float (f : L.F)
  | int (i : Int)
  | keycode (k : KeyCode)
  | lineOrder (lo : Int)
  | m33f (m : Fin 3 → Fin 3 → L.F)
  | m44f (m : Fin 4 → Fin 4 → L.F)
  | preview (width height : Nat)
  | string (str : String)
  | stringvector (v : List String)
  | rational (n : Int) (d : Nat)
  | tiledesc (td : TileDescription)
  | timecode (tc : TimeCode)
  | v2i (v : V2 Int)
  | v2f (v : V2 L.F)
  | v3i (v : V3 Int)
  | v3f (v : V3 L.F)
  | unrecognised

/-- An entry of a header: the name it is stored under, the type name the
attribute reports and its value. -/
structure Attribute (L : Lib) where
  name : String
  typeName : String
  value : AttrValue L

/-- A multi-part input file as `printInfo` reads it. -/
structure MultiPartInputFile (L : Lib) where
  parts : Nat
  header : Nat → List (Attribute L)
  partComplete : Nat → Bool
  version : Int

/-! ## The formatters -/

/-- The function `printCompression`. -/
def printCompression (L : Lib) (c : Int) (s : OStream) : OStream :=
  put (L.getCompressionDescriptionFromId c) s

/-- The function `printLineOrder`. -/
def printLineOrder (lo : Int) (s : OStream) : OStream :=
  if lo = INCREASING_Y then put "increasing y" s
  else if lo = DECREASING_Y then put "decreasing y" s
  else if lo = RANDOM_Y then put "random y" s
  else putInt lo s

/-- The function `printPixelType`. -/
def printPixelType (pt : Int) (s : OStream) : OStream :=
  if pt = UINT then put "32-bit unsigned integer" s
  else if pt = HALF then put "16-bit floating-point" s
  else if pt = FLOAT then put "32-bit floating-point" s
  else s |> put "type " |> putInt pt

/-- The function `printLevelMode`. -/
def printLevelMode (lm : Int) (s : OStream) : OStream :=
  if lm = ONE_LEVEL then put "single level" s
  else if lm = MIPMAP_LEVELS then put "mip-map" s
  else if lm = RIPMAP_LEVELS then put "rip-map" s
  else s |> put "level mode " |> putInt lm

/-- The function `printLevelRoundingMode`. -/
def printLevelRoundingMode (lm : Int) (s : OStream) : OStream :=
  if lm = ROUND_DOWN then put "down" s
  else if lm = ROUND_UP then put "up" s
  else s |> put "mode " |> putInt lm

/-- The function `printTimeCode`. -/
def printTimeCode (tc : TimeCode) (s : OStream) : OStream :=
  s |> put "    time "
    |> setfill '0'
    |> putIntW 2 tc.hours |> put ":"
    |> putIntW 2 tc.minutes |> put ":"
    |> putIntW 2 tc.seconds |> put ":"
    |> putIntW 2 tc.frame |> put "\n"
    |> setfill ' '
    |> put "    drop frame " |> putBool tc.dropFrame
    |> put ", color frame " |> putBool tc.colorFrame
    |> put ", field/phase " |> putBool tc.fieldPhase
    |> put "\n    bgf0 " |> putBool tc.bgf0
    |> put ", bgf1 " |> putBool tc.bgf1
    |> put ", bgf2 " |> putBool tc.bgf2
    |> put "\n    user data 0x"
    |> hex |> putUInt tc.userData |> dec

/-- The function `printEnvmap`. -/
def printEnvmap (e : Int) (s : OStream) : OStream :=
  if e = ENVMAP_LATLONG then put "latitude-longitude map" s
  else if e = ENVMAP_CUBE then put "cube-face map" s
  else s |> put "map type " |> putInt e

/-- The function `printChannelList`: the loop over the channels in the
list's iteration order. -/
def printChannelList : List (String × Channel) → OStream → OStream
  | [], s => s
  | i :: rest, s =>
    printChannelList rest
      (s |> put "\n    " |> put i.1 |> put ", "
         |> printPixelType i.2.type
         |> put ", sampling " |> putInt i.2.xSampling |> put " " |> putInt i.2.ySampling
         |> fun s1 => if i.2.pLinear then put ", plinear" s1 else s1)

/-- The loop of `printInfo` over a string vector. -/
def printStringVector : List String → OStream → OStream
  | [], s => s
  | i :: rest, s => printStringVector rest (s |> put "\n    \"" |> put i |> put "\"")

/-- The dispatch of `printInfo` on the concrete kind of the attribute: the
chain of `dynamic_cast` tests, each branch writing the value body. An
attribute of no tested class falls through the whole chain. -/
def printAttributeValue (L : Lib) (a : AttrValue L) (s : OStream) : OStream :=
  match a with
  | AttrValue.box2i min max =>
    s |> put ": " |> putV2i min |> put " - " |> putV2i max
  | AttrValue.box2f min max =>
    s |> put ": " |> putV2f L min |> put " - " |> putV2f L max
  | AttrValue.chlist cl =>
    s |> put ":" |> printChannelList cl
  | AttrValue.chromaticities red green blue white =>
    s |> put ":\n    red   " |> putV2f L red
      |> put "\n    green " |> putV2f L green
      |> put "\n    blue  " |> putV2f L blue
      |> put "\n    white " |> putV2f L white
  | AttrValue.compression c =>
    s |> put ": " |> printCompression L c
  | AttrValue.double d =>
    s |> put ": " |> put (L.showD d)
  | AttrValue.envmap e =>
    s |> put ": " |> printEnvmap e
  | AttrValue.float f =>
    s |> put ": " |> put (L.showF f)
  | AttrValue.int i =>
    s |> put ": " |> putInt i
  | AttrValue.keycode k =>
    s |> put ":\n    film manufacturer code " |> putInt k.filmMfcCode
      |> put "\n    film type code " |> putInt k.filmType
      |> put "\n    prefix " |> putInt k.prefixCode
      |> put "\n    count " |> putInt k.count
      |> put "\n    perf offset " |> putInt k.perfOffset
      |> put "\n    perfs per frame " |> putInt k.perfsPerFrame
      |> put "\n    perfs per count " |> putInt k.perfsPerCount
  | AttrValue.lineOrder lo =>
    s |> put ": " |> printLineOrder lo
  | AttrValue.m33f m =>
    s |> put ":\n   ("
      |> put (L.showF (m 0 0)) |> put " " |> put (L.showF (m 0 1)) |> put " "
      |> put (L.showF (m 0 2)) |> put "\n    " |> put (L.showF (m 1 0))
      |> put " " |> put (L.showF (m 1 1)) |> put " " |> put (L.showF (m 1 2))
      |> put "\n    " |> put (L.showF (m 2 0)) |> put " "
      |> put (L.showF (m 2 1)) |> put " " |> put (L.showF (m 2 2)) |> put ")"
  | AttrValue.m44f m =>
    s |> put ":\n   ("
      |> put (L.showF (m 0 0)) |> put " " |> put (L.showF (m 0 1)) |> put " "
      |> put (L.showF (m 0 2)) |> put " " |> put (L.showF (m 0 3))
      |> put "\n    " |> put (L.showF (m 1 0)) |> put " "
      |> put (L.showF (m 1 1)) |> put " " |> put (L.showF (m 1 2)) |> put " "
      |> put (L.showF (m 1 3)) |> put "\n    " |> put (L.showF (m 2 0))
      |> put " " |> put (L.showF (m 2 1)) |> put " " |> put (L.showF (m 2 2))
      |> put " " |> put (L.showF (m 2 3)) |> put "\n    "
      |> put (L.showF (m 3 0)) |> put " " |> put (L.showF (m 3 1)) |> put " "
      |> put (L.showF (m 3 2)) |> put " " |> put (L.showF (m 3 3)) |> put ")"
  | AttrValue.preview width height =>
    s |> put ": " |> putUInt width |> put " by " |> putUInt height |> put " pixels"
  | AttrValue.string str =>
    s |> put ": \"" |> put str |> put "\""
  | AttrValue.stringvector v =>
    s |> put ":" |> printStringVector v
  | AttrValue.rational n d =>
    s |> put ": " |> putInt n |> put "/" |> putUInt d |> put " ("
      |> put (L.showD (L.rationalToDouble n d)) |> put ")"
  | AttrValue.tiledesc td =>
    s |> put ":\n    "
      |> printLevelMode td.mode
      |> put "\n    tile size " |> putUInt td.xSize |> put " by " |> putUInt td.ySize
      |> put " pixels"
      |> fun s1 =>
        if td.mode ≠ ONE_LEVEL then
          s1 |> put "\n    level sizes rounded " |> printLevelRoundingMode td.roundingMode
        else s1
  | AttrValue.timecode tc =>
    s |> put ":\n" |> printTimeCode tc
  | AttrValue.v2i v =>
    s |> put ": " |> putV2i v
  | AttrValue.v2f v =>
    s |> put ": " |> putV2f L v
  | AttrValue.v3i v =>
    s |> put ": " |> putV3i v
  | AttrValue.v3f v =>
    s |> put ": " |> putV3f L v
  | AttrValue.unrecognised => s

/-- The body of the loop of `printInfo` over the attributes of a header: the
name and type name, the value body, the newline. -/
def printAttribute (L : Lib) (a : Attribute L) (s : OStream) : OStream :=
  s |> put a.name |> put " (type " |> put a.typeName |> put ")"
    |> printAttributeValue L a.value
    |> put "\n"

/-- The loop of `printInfo` over the attributes of a header, in the header's
iteration order. -/
def printHeader (L : Lib) : List (Attribute L) → OStream → OStream
  | [], s => s
  | a :: rest, s => printHeader L rest (printAttribute L a s)

/-- The first loop of `printInfo`, started at index `i` with the current
value of `fileComplete`: it stops at the first incomplete part. -/
def fileCompleteLoop {L : Lib} (inp : MultiPartInputFile L) (i : Nat) (fileComplete : Bool) :
    Bool :=
  if i < inp.parts ∧ fileComplete = true then
    fileCompleteLoop inp (i + 1) (if !inp.partComplete i then false else fileComplete)
  else fileComplete
termination_by inp.parts - i

/-- The statement of `printInfo` that writes the label of part `p`, only
when the file does not have exactly one part. -/
def printPartLabel {L : Lib} (inp : MultiPartInputFile L) (p : Nat) (s : OStream) : OStream :=
  if inp.parts ≠ 1 then
    s |> put "\n\n part " |> putInt p
      |> put (if inp.partComplete p then "" else " (incomplete)") |> put ":\n"
  else s

/-- The body of the loop of `printInfo` over the parts: the part label, then
the attributes of the header. -/
def printPart (L : Lib) (inp : MultiPartInputFile L) (p : Nat) (s : OStream) : OStream :=
  let h := inp.header p
  s |> printPartLabel inp p |> printHeader L h

/-- The loop of `printInfo` over the parts, started at part `p`. -/
def partsLoop (L : Lib) (inp : MultiPartInputFile L) (p : Nat) (s : OStream) : OStream :=
  if p < inp.parts then partsLoop L inp (p + 1) (printPart L inp p s) else s
termination_by inp.parts - p

/-- The first statements of `printInfo` once the file is open: the check for
incomplete parts, the file line and the version line. -/
def printFileAndVersion (L : Lib) (fileName : String) (inp : MultiPartInputFile L)
    (s : OStream) : OStream :=
  let fileComplete := fileCompleteLoop inp 0 true
  s |> put "\nfile " |> put fileName |> put (if fileComplete then "" else " (incomplete)")
    |> put ":\n\n"
    |> put "file format version: " |> putInt (L.getVersion inp.version)
    |> put ", flags 0x"
    |> setbase 16 |> putInt (L.getFlags inp.version) |> setbase 10 |> put "\n"

/-- What `printInfo` writes once the file is open: the file line and the
version line, the parts, the final `endl`. -/
def printOpened (L : Lib) (fileName : String) (inp : MultiPartInputFile L) (s : OStream) :
    OStream :=
  s |> printFileAndVersion L fileName inp
    |> partsLoop L inp 0
    |> put "\n"

/-! ## The program -/

/-- The two streams of the process, and the names of the files `printInfo`
has been called with, in call order (a ghost record, not program state). -/
structure World where
  cout : OStream
  cerr : OStream
  invoked : List String

/-- The world at program start. -/
def World.init : World := { cout := cout0, cerr := cout0, invoked := [] }

/-- The function `printInfo`: the constructor of `MultiPartInputFile` either
throws (the message of the exception is returned, nothing is written) or
yields the opened file, which is then printed. `files` is the file system. -/
def printInfo (L : Lib) (files : String → Except String (MultiPartInputFile L))
    (fileName : String) (w : World) : Option String × World :=
  let w1 := { w with invoked := w.invoked ++ [fileName] }
  match files fileName with
  | Except.error e => (some e, w1)
  | Except.ok inp => (none, { w1 with cout := printOpened L fileName inp w1.cout })

/-- The function `usageMessage`. -/
def usageMessage (program_name : String) (verbose : Bool) (stream : OStream) : OStream :=
  let s1 := stream |> put "Usage: " |> put program_name |> put " imagefile [imagefile ...]\n"
  if verbose then
    s1 |> put ("\n" ++
      "Read exr files and print the values of header attributes.\n" ++
      "\n" ++
      "Options:\n" ++
      "  -h, --help        print this message\n" ++
      "      --version     print version information\n" ++
      "\n" ++
      "Report bugs via https://github.com/AcademySoftwareFoundation/openexr/issues or email security@openexr.com\n" ++
      "")
  else s1

/-- The text `main` writes for `--version`. -/
def printVersion (L : Lib) (s : OStream) : OStream :=
  let libraryVersion := L.getLibraryVersion
  s |> put "exrheader (OpenEXR) " |> put L.OPENEXR_VERSION_STRING
    |> (fun s1 =>
      if libraryVersion ≠ L.OPENEXR_VERSION_STRING then
        s1 |> put "(OpenEXR version " |> put libraryVersion |> put ")"
      else s1)
    |> put " https://openexr.com" |> put "\n"
    |> put "Copyright (c) Contributors to the OpenEXR Project" |> put "\n"
    |> put "License BSD-3-Clause" |> put "\n"

/-- The first loop of `main`, over the arguments from index `i`: `some` of
the exit status when an argument makes `main` return, `none` when the loop
runs to its end. The test for `--help` reads `argv[1]`. -/
def flagLoop (L : Lib) (argv : List String) (i : Nat) (w : World) : Option (Int × World) :=
  if i < argv.length then
    if argv.getD i "" = "-h" ∨ argv.getD 1 "" = "--help" then
      some (0, { w with cout := usageMessage "exrheader" true w.cout })
    else if argv.getD i "" = "--version" then
      some (0, { w with cout := printVersion L w.cout })
    else flagLoop L argv (i + 1) w
  else none
termination_by argv.length - i

/-- The loop of `main` inside the `try` block, from index `i`: `printInfo` on
each argument in turn; an exception leaves the loop. -/
def fileLoop (L : Lib) (files : String → Except String (MultiPartInputFile L))
    (argv : List String) (i : Nat) (w : World) : Option String × World :=
  if i < argv.length then
    match printInfo L files (argv.getD i "") w with
    | (some e, w1) => (some e, w1)
    | (none, w1) => fileLoop L files argv (i + 1) w1
  else (none, w)
termination_by argv.length - i

/-- The function `main`: the exit status and the final world. -/
def main (L : Lib) (files : String → Except String (MultiPartInputFile L))
    (argv : List String) (w : World) : Int × World :=
  if argv.length < 2 then
    (-1, { w with cerr := usageMessage (argv.getD 0 "") false w.cerr })
  else
    match flagLoop L argv 1 w with
    | some r => r
    | none =>
      match fileLoop L files argv 1 w with
      | (none, w1) => (0, w1)
      | (some e, w1) =>
        (1, { w1 with cerr := w1.cerr |> put (argv.getD 0 "") |> put ": " |> put e |> put "\n" })

/-! ## The text of each formatter

The text a formatter writes is read off a run on the fresh stream `cout0`. -/

/-- Text `printLineOrder` writes in decimal base. -/
def lineOrderText (lo : Int) : String := (printLineOrder lo cout0).out

/-- Text `printPixelType` writes in decimal base. -/
def pixelTypeText (pt : Int) : String := (printPixelType pt cout0).out

/-- Text `printLevelMode` writes in decimal base. -/
def levelModeText (lm : Int) : String := (printLevelMode lm cout0).out

/-- Text `printLevelRoundingMode` writes in decimal base. -/
def levelRoundingModeText (lm : Int) : String := (printLevelRoundingMode lm cout0).out

/-- Text `printEnvmap` writes in decimal base. -/
def envmapText (e : Int) : String := (printEnvmap e cout0).out

/-- Text of an integer pair in decimal base. -/
def v2iText (v : V2 Int) : String := (putV2i v cout0).out

/-- Text of an integer triple in decimal base. -/
def v3iText (v : V3 Int) : String := (putV3i v cout0).out

/-- Text of a float pair. -/
def v2fText (L : Lib) (v : V2 L.F) : String := (putV2f L v cout0).out

/-- Text of a float triple. -/
def v3fText (L : Lib) (v : V3 L.F) : String := (putV3f L v cout0).out

/-- Text `printTimeCode` writes when the stream is in decimal base. -/
def timeCodeText (tc : TimeCode) : String := (printTimeCode tc cout0).out

/-- Text `printChannelList` writes in decimal base. -/
def channelListText (cl : List (String × Channel)) : String := (printChannelList cl cout0).out

/-- Text the string vector loop writes. -/
def stringVectorText (v : List String) : String := (printStringVector v cout0).out

/-- Text written after the name and type of an attribute, in decimal base. -/
def attrValueText (L : Lib) (a : AttrValue L) : String := (printAttributeValue L a cout0).out

/-- Text written for one attribute, in decimal base. -/
def attrText (L : Lib) (a : Attribute L) : String := (printAttribute L a cout0).out

/-- Text written for the attributes of a header, in decimal base. -/
def headerText (L : Lib) (h : List (Attribute L)) : String := (printHeader L h cout0).out

/-- Text of the label of part `p`, in decimal base. -/
def partLabelText {L : Lib} (inp : MultiPartInputFile L) (p : Nat) : String :=
  (printPartLabel inp p cout0).out

/-- Text of the block of part `p`: its label and its attributes. -/
def partText (L : Lib) (inp : MultiPartInputFile L) (p : Nat) : String :=
  (printPart L inp p cout0).out

/-- Text of one channel line. -/
def channelLine (i : String × Channel) : String :=
  "\n    " ++ i.1 ++ ", " ++ pixelTypeText i.2.type ++ ", sampling " ++ decimal i.2.xSampling
    ++ " " ++ decimal i.2.ySampling ++ (if i.2.pLinear then ", plinear" else "")

/-! ## The loops of `main` as recursions over the remaining arguments -/

/-- The first loop of `main` as a recursion over the arguments still to be
scanned; `first` is `argv[1]`. -/
def flagScan (L : Lib) (first : String) : List String → World → Option (Int × World)
  | [], _ => none
  | a :: rest, w =>
    if a = "-h" ∨ first = "--help" then
      some (0, { w with cout := usageMessage "exrheader" true w.cout })
    else if a = "--version" then
      some (0, { w with cout := printVersion L w.cout })
    else flagScan L first rest w

/-- The loop of `main` over the files as a recursion over the names still to
be printed. -/
def runFiles (L : Lib) (files : String → Except String (MultiPartInputFile L)) :
    List String → World → Option String × World
  | [], w => (none, w)
  | f :: rest, w =>
    match printInfo L files f w with
    | (some e, w1) => (some e, w1)
    | (none, w1) => runFiles L files rest w1

/-! ## Concrete inputs for evaluating the model -/

/-- A concrete library: floating-point values are stood in by integers written
in decimal, the version word is split at bit 8. -/
def sampleLib : Lib :=
  { F := Int
    D := Int
    showF := decimal
    showD := decimal
    rationalToDouble := fun n d => n / d
    getCompressionDescriptionFromId := fun c => if c = 3 then "zip" else "none"
    getVersion := fun v => v % 256
    getFlags := fun v => v - v % 256
    OPENEXR_VERSION_STRING := "3.2.0"
    getLibraryVersion := "3.2.0" }

/-- A header with a string attribute, an attribute of an unrecognised kind and
an integer attribute. -/
def sampleHeader : List (Attribute sampleLib) :=
  [ { name := "comments", typeName := "string", value := AttrValue.string "hi" },
    { name := "future", typeName := "newtype", value := AttrValue.unrecognised },
    { name := "count", typeName := "int", value := AttrValue.int 5 } ]

/-- A file with one complete part. -/
def sampleOnePart : MultiPartInputFile sampleLib :=
  { parts := 1, header := fun _ => sampleHeader, partComplete := fun _ => true, version := 2 }

/-- A file with three parts of which only part 1 is incomplete. -/
def sampleThreeParts : MultiPartInputFile sampleLib :=
  { parts := 3, header := fun _ => sampleHeader, partComplete := fun p => p != 1,
    version := 4098 }

/-- A time code attribute: 01:02:03:04, no flag set, user data 0. -/
def sampleTimeCode : Attribute sampleLib :=
  { name := "timeCode", typeName := "timecode",
    value := AttrValue.timecode
      { hours := 1, minutes := 2, seconds := 3, frame := 4, dropFrame := false,
        colorFrame := false, fieldPhase := false, bgf0 := false, bgf1 := false,
        bgf2 := false, userData := 0 } }

/-- An integer attribute. -/
def sampleInt : Attribute sampleLib :=
  { name := "count", typeName := "int", value := AttrValue.int 255 }

/-- The number a list of decimal digit characters stands for, the most
significant digit first. -/
def decValue (ds : List Char) : Nat :=
  ds.foldl (fun acc c => acc * 10 + (c.toNat - 48)) 0

/-- The two decimal digits of a number between 0 and 99, the tens first. -/
def twoDigits (v : Int) : String :=
  String.mk [Nat.digitChar (v.toNat / 10), Nat.digitChar (v.toNat % 10)]

/-- The time code 01:02:03:04 with no flag set and user data 0. -/
def sampleTimeCodeValue : TimeCode :=
  { hours := 1, minutes := 2, seconds := 3, frame := 4, dropFrame := false,
    colorFrame := false, fieldPhase := false, bgf0 := false, bgf1 := false,
    bgf2 := false, userData := 0 }

/-- The time code 23:59:07:00 with the drop frame and bgf1 flags set and user
data 255. -/
def sampleTimeCodeLate : TimeCode :=
  { hours := 23, minutes := 59, seconds := 7, frame := 0, dropFrame := true,
    colorFrame := false, fieldPhase := false, bgf0 := false, bgf1 := true,
    bgf2 := false, userData := 255 }

/-- A file system with the two files above; any other name fails to open. -/
def sampleFiles (fileName : String) : Except String (MultiPartInputFile sampleLib) :=
  if fileName = "one.exr" then Except.ok sampleOnePart
  else if fileName = "three.exr" then Except.ok sampleThreeParts
  else Except.error ("Cannot open image file \"" ++ fileName ++ "\".")

/-! ## Elementary facts about the stream operations -/

@[simp]
theorem cout0_out : cout0.out = "" := rfl
@[simp]
theorem cout0_fill : cout0.fill = ' ' := rfl
@[simp]
theorem cout0_basefield : cout0.basefield = Basefield.dec := rfl

@[simp]
theorem put_out (t : String) (s : OStream) : (put t s).out = s.out ++ t := rfl
@[simp]
theorem put_fill (t : String) (s : OStream) : (put t s).fill = s.fill := rfl
@[simp]
theorem put_basefield (t : String) (s : OStream) :
    (put t s).basefield = s.basefield := rfl

@[simp]
theorem putInt_out (v : Int) (s : OStream) :
    (putInt v s).out = s.out ++ fmtInt s.basefield v := rfl
@[simp]
theorem putInt_fill (v : Int) (s : OStream) : (putInt v s).fill = s.fill := rfl
@[simp]
theorem putInt_basefield (v : Int) (s : OStream) :
    (putInt v s).basefield = s.basefield := rfl

@[simp]
theorem putUInt_out (v : Nat) (s : OStream) :
    (putUInt v s).out = s.out ++ fmtUInt s.basefield v := rfl
@[simp]
theorem putUInt_fill (v : Nat) (s : OStream) : (putUInt v s).fill = s.fill := rfl
@[simp]
theorem putUInt_basefield (v : Nat) (s : OStream) :
    (putUInt v s).basefield = s.basefield := rfl

@[simp]
theorem putBool_out (b : Bool) (s : OStream) :
    (putBool b s).out = s.out ++ (if b then "1" else "0") := rfl
@[simp]
theorem putBool_fill (b : Bool) (s : OStream) : (putBool b s).fill = s.fill := rfl
@[simp]
theorem putBool_basefield (b : Bool) (s : OStream) :
    (putBool b s).basefield = s.basefield := rfl

@[simp]
theorem putIntW_out (w : Nat) (v : Int) (s : OStream) :
    (putIntW w v s).out = s.out ++ padLeft s.fill w (fmtInt s.basefield v) := rfl
@[simp]
theorem putIntW_fill (w : Nat) (v : Int) (s : OStream) :
    (putIntW w v s).fill = s.fill := rfl
@[simp]
theorem putIntW_basefield (w : Nat) (v : Int) (s : OStream) :
    (putIntW w v s).basefield = s.basefield := rfl

@[simp]
theorem setfill_out (c : Char) (s : OStream) : (setfill c s).out = s.out := rfl
@[simp]
theorem setfill_fill (c : Char) (s : OStream) : (setfill c s).fill = c := rfl
@[simp]
theorem setfill_basefield (c : Char) (s : OStream) :
    (setfill c s).basefield = s.basefield := rfl

@[simp]
theorem setbase_out (n : Int) (s : OStream) : (setbase n s).out = s.out := rfl
@[simp]
theorem setbase_fill (n : Int) (s : OStream) : (setbase n s).fill = s.fill := rfl
@[simp]
theorem setbase_16 (s : OStream) : (setbase 16 s).basefield = Basefield.hex := rfl
@[simp]
theorem setbase_10 (s : OStream) : (setbase 10 s).basefield = Basefield.dec := rfl

@[simp]
theorem hex_out (s : OStream) : (hex s).out = s.out := rfl
@[simp]
theorem hex_fill (s : OStream) : (hex s).fill = s.fill := rfl
@[simp]
theorem hex_basefield (s : OStream) : (hex s).basefield = Basefield.hex := rfl

@[simp]
theorem dec_out (s : OStream) : (dec s).out = s.out := rfl
@[simp]
theorem dec_fill (s : OStream) : (dec s).fill = s.fill := rfl
@[simp]
theorem dec_basefield (s : OStream) : (dec s).basefield = Basefield.dec := rfl

@[simp]
theorem fmtInt_dec (v : Int) : fmtInt Basefield.dec v = decimal v := rfl
@[simp]
theorem fmtUInt_dec (v : Nat) : fmtUInt Basefield.dec v = digits 10 v := rfl

/-- Two streams with the same text, fill character and base are equal. -/
theorem OStream.ext3 {s t : OStream} (ho : s.out = t.out) (hf : s.fill = t.fill)
    (hb : s.basefield = t.basefield) : s = t := by
  cases s; cases t; simp_all

/-- Cancellation of a common beginning of two texts. -/
theorem append_cancel_left {a b c : String} (h : a ++ b = a ++ c) : b = c := by
  have h1 : (a ++ b).data = (a ++ c).data := by rw [h]
  rw [String.data_append, String.data_append] at h1
  exact String.ext (List.append_cancel_left h1)

/-- Folding `++` from an accumulator is the accumulator followed by the join. -/
theorem join_acc (l : List String) (a : String) :
    List.foldl (fun r s => r ++ s) a l = a ++ String.join l := by
  induction l generalizing a with
  | nil => simp [String.join]
  | cons x rest ih =>
    simp only [String.join, List.foldl_cons] at ih ⊢
    rw [ih (a ++ x), ih ("" ++ x)]
    simp [String.append_assoc]

@[simp]
theorem join_nil : String.join [] = "" := rfl

@[simp]
theorem join_cons (x : String) (l : List String) :
    String.join (x :: l) = x ++ String.join l := by
  rw [String.join, List.foldl_cons, join_acc]; simp

theorem join_append (l m : List String) :
    String.join (l ++ m) = String.join l ++ String.join m := by
  induction l with
  | nil => simp
  | cons x rest ih => simp [ih, String.append_assoc]

/-! ## The formatters append their text and keep the formatting state -/

section Formatters

variable (s : OStream)

@[simp]
theorem printLineOrder_fill (lo : Int) : (printLineOrder lo s).fill = s.fill := by
  unfold printLineOrder; split_ifs <;> rfl

@[simp]
theorem printLineOrder_basefield (lo : Int) : (printLineOrder lo s).basefield = s.basefield := by
  unfold printLineOrder; split_ifs <;> rfl

@[simp]
theorem printLineOrder_out (lo : Int) (hb : s.basefield = Basefield.dec) :
    (printLineOrder lo s).out = s.out ++ lineOrderText lo := by
  unfold lineOrderText printLineOrder; split_ifs <;> simp [hb, String.append_assoc]

@[simp]
theorem printPixelType_fill (pt : Int) : (printPixelType pt s).fill = s.fill := by
  unfold printPixelType; split_ifs <;> rfl

@[simp]
theorem printPixelType_basefield (pt : Int) : (printPixelType pt s).basefield = s.basefield := by
  unfold printPixelType; split_ifs <;> rfl

@[simp]
theorem printPixelType_out (pt : Int) (hb : s.basefield = Basefield.dec) :
    (printPixelType pt s).out = s.out ++ pixelTypeText pt := by
  unfold pixelTypeText printPixelType; split_ifs <;> simp [hb, String.append_assoc]

@[simp]
theorem printLevelMode_fill (lm : Int) : (printLevelMode lm s).fill = s.fill := by
  unfold printLevelMode; split_ifs <;> rfl

@[simp]
theorem printLevelMode_basefield (lm : Int) : (printLevelMode lm s).basefield = s.basefield := by
  unfold printLevelMode; split_ifs <;> rfl

@[simp]
theorem printLevelMode_out (lm : Int) (hb : s.basefield = Basefield.dec) :
    (printLevelMode lm s).out = s.out ++ levelModeText lm := by
  unfold levelModeText printLevelMode; split_ifs <;> simp [hb, String.append_assoc]

@[simp]
theorem printLevelRoundingMode_fill (lm : Int) : (printLevelRoundingMode lm s).fill = s.fill := by
  unfold printLevelRoundingMode; split_ifs <;> rfl

@[simp]
theorem printLevelRoundingMode_basefield (lm : Int) : (printLevelRoundingMode lm s).basefield = s.basefield := by
  unfold printLevelRoundingMode; split_ifs <;> rfl

@[simp]
theorem printLevelRoundingMode_out (lm : Int) (hb : s.basefield = Basefield.dec) :
    (printLevelRoundingMode lm s).out = s.out ++ levelRoundingModeText lm := by
  unfold levelRoundingModeText printLevelRoundingMode; split_ifs <;> simp [hb, String.append_assoc]

@[simp]
theorem printEnvmap_fill (e : Int) : (printEnvmap e s).fill = s.fill := by
  unfold printEnvmap; split_ifs <;> rfl

@[simp]
theorem printEnvmap_basefield (e : Int) : (printEnvmap e s).basefield = s.basefield := by
  unfold printEnvmap; split_ifs <;> rfl

@[simp]
theorem printEnvmap_out (e : Int) (hb : s.basefield = Basefield.dec) :
    (printEnvmap e s).out = s.out ++ envmapText e := by
  unfold envmapText printEnvmap; split_ifs <;> simp [hb, String.append_assoc]

@[simp]
theorem putV2i_fill (v : V2 Int) : (putV2i v s).fill = s.fill := by
  simp [putV2i]

@[simp]
theorem putV2i_basefield (v : V2 Int) : (putV2i v s).basefield = s.basefield := by
  simp [putV2i]

@[simp]
theorem putV2i_out (v : V2 Int) (hb : s.basefield = Basefield.dec) :
    (putV2i v s).out = s.out ++ v2iText v := by
  simp [v2iText, putV2i, hb, String.append_assoc]

@[simp]
theorem putV3i_fill (v : V3 Int) : (putV3i v s).fill = s.fill := by
  simp [putV3i]

@[simp]
theorem putV3i_basefield (v : V3 Int) : (putV3i v s).basefield = s.basefield := by
  simp [putV3i]

@[simp]
theorem putV3i_out (v : V3 Int) (hb : s.basefield = Basefield.dec) :
    (putV3i v s).out = s.out ++ v3iText v := by
  simp [v3iText, putV3i, hb, String.append_assoc]

@[simp]
theorem putV2f_fill (L : Lib) (v : V2 L.F) : (putV2f L v s).fill = s.fill := by
  simp [putV2f]

@[simp]
theorem putV2f_basefield (L : Lib) (v : V2 L.F) : (putV2f L v s).basefield = s.basefield := by
  simp [putV2f]

@[simp]
theorem putV2f_out (L : Lib) (v : V2 L.F) :
    (putV2f L v s).out = s.out ++ v2fText L v := by
  simp [v2fText, putV2f, String.append_assoc]

@[simp]
theorem putV3f_fill (L : Lib) (v : V3 L.F) : (putV3f L v s).fill = s.fill := by
  simp [putV3f]

@[simp]
theorem putV3f_basefield (L : Lib) (v : V3 L.F) : (putV3f L v s).basefield = s.basefield := by
  simp [putV3f]

@[simp]
theorem putV3f_out (L : Lib) (v : V3 L.F) :
    (putV3f L v s).out = s.out ++ v3fText L v := by
  simp [v3fText, putV3f, String.append_assoc]

@[simp]
theorem printCompression_fill (L : Lib) (c : Int) : (printCompression L c s).fill = s.fill := rfl

@[simp]
theorem printCompression_basefield (L : Lib) (c : Int) :
    (printCompression L c s).basefield = s.basefield := rfl

@[simp]
theorem printCompression_out (L : Lib) (c : Int) :
    (printCompression L c s).out = s.out ++ L.getCompressionDescriptionFromId c := rfl

@[simp]
theorem printTimeCode_fill (tc : TimeCode) : (printTimeCode tc s).fill = ' ' := by
  simp [printTimeCode]

@[simp]
theorem printTimeCode_basefield (tc : TimeCode) :
    (printTimeCode tc s).basefield = Basefield.dec := by
  simp [printTimeCode]

@[simp]
theorem printTimeCode_out (tc : TimeCode) (hb : s.basefield = Basefield.dec) :
    (printTimeCode tc s).out = s.out ++ timeCodeText tc := by
  simp [timeCodeText, printTimeCode, hb, String.append_assoc]

end Formatters

@[simp]
theorem printChannelList_fill (cl : List (String × Channel)) (s : OStream) :
    (printChannelList cl s).fill = s.fill := by
  induction cl generalizing s with
  | nil => rfl
  | cons i rest ih =>
    simp only [printChannelList, ih]
    split_ifs <;> simp

@[simp]
theorem printChannelList_basefield (cl : List (String × Channel)) (s : OStream) :
    (printChannelList cl s).basefield = s.basefield := by
  induction cl generalizing s with
  | nil => rfl
  | cons i rest ih =>
    simp only [printChannelList, ih]
    split_ifs <;> simp

theorem printChannelList_lines (cl : List (String × Channel)) (s : OStream)
    (hb : s.basefield = Basefield.dec) :
    (printChannelList cl s).out = s.out ++ String.join (cl.map channelLine) := by
  induction cl generalizing s with
  | nil => simp [printChannelList, String.join]
  | cons i rest ih =>
    simp only [printChannelList]
    rw [ih _ (by split_ifs <;> simp [hb])]
    split_ifs with hp <;> simp [hb, hp, channelLine, String.append_assoc]

@[simp]
theorem printChannelList_out (cl : List (String × Channel)) (s : OStream)
    (hb : s.basefield = Basefield.dec) :
    (printChannelList cl s).out = s.out ++ channelListText cl := by
  rw [channelListText, printChannelList_lines cl s hb, printChannelList_lines cl cout0 rfl]
  simp

@[simp]
theorem printStringVector_fill (v : List String) (s : OStream) :
    (printStringVector v s).fill = s.fill := by
  induction v generalizing s with
  | nil => rfl
  | cons i rest ih => simp [printStringVector, ih]

@[simp]
theorem printStringVector_basefield (v : List String) (s : OStream) :
    (printStringVector v s).basefield = s.basefield := by
  induction v generalizing s with
  | nil => rfl
  | cons i rest ih => simp [printStringVector, ih]

theorem printStringVector_lines (v : List String) (s : OStream) :
    (printStringVector v s).out
      = s.out ++ String.join (v.map (fun i => "\n    \"" ++ i ++ "\"")) := by
  induction v generalizing s with
  | nil => simp [printStringVector, String.join]
  | cons i rest ih =>
    simp only [printStringVector]
    rw [ih]
    simp [String.append_assoc]

@[simp]
theorem printStringVector_out (v : List String) (s : OStream) :
    (printStringVector v s).out = s.out ++ stringVectorText v := by
  rw [stringVectorText, printStringVector_lines v s, printStringVector_lines v cout0]
  simp

/-! ## Attributes -/

@[simp]
theorem printAttributeValue_basefield (L : Lib) (a : AttrValue L) (s : OStream)
    (hb : s.basefield = Basefield.dec) :
    (printAttributeValue L a s).basefield = Basefield.dec := by
  cases a <;> simp [printAttributeValue, hb]
  case tiledesc td => split_ifs <;> simp [hb]

theorem printAttributeValue_fill (L : Lib) (a : AttrValue L) (s : OStream)
    (hf : s.fill = ' ') : (printAttributeValue L a s).fill = ' ' := by
  cases a <;> simp [printAttributeValue, hf]
  case tiledesc td => split_ifs <;> simp [hf]

@[simp]
theorem printAttributeValue_out (L : Lib) (a : AttrValue L) (s : OStream)
    (hb : s.basefield = Basefield.dec) :
    (printAttributeValue L a s).out = s.out ++ attrValueText L a := by
  cases a <;> simp [attrValueText, printAttributeValue, hb, String.append_assoc]
  case tiledesc td => split_ifs <;> simp [hb, String.append_assoc]

@[simp]
theorem printAttribute_basefield (L : Lib) (a : Attribute L) (s : OStream)
    (hb : s.basefield = Basefield.dec) :
    (printAttribute L a s).basefield = Basefield.dec := by
  simp [printAttribute, hb]

theorem printAttribute_fill (L : Lib) (a : Attribute L) (s : OStream)
    (hf : s.fill = ' ') : (printAttribute L a s).fill = ' ' := by
  simp [printAttribute, printAttributeValue_fill, hf]

@[simp]
theorem printAttribute_out (L : Lib) (a : Attribute L) (s : OStream)
    (hb : s.basefield = Basefield.dec) :
    (printAttribute L a s).out = s.out ++ attrText L a := by
  simp [attrText, printAttribute, hb, String.append_assoc]

@[simp]
theorem printHeader_basefield (L : Lib) (h : List (Attribute L)) (s : OStream)
    (hb : s.basefield = Basefield.dec) :
    (printHeader L h s).basefield = Basefield.dec := by
  induction h generalizing s with
  | nil => simpa [printHeader] using hb
  | cons a rest ih => simp [printHeader, ih, hb]

theorem printHeader_fill (L : Lib) (h : List (Attribute L)) (s : OStream)
    (hf : s.fill = ' ') : (printHeader L h s).fill = ' ' := by
  induction h generalizing s with
  | nil => simpa [printHeader] using hf
  | cons a rest ih => simp [printHeader, ih, printAttribute_fill, hf]

theorem printHeader_append (L : Lib) (xs ys : List (Attribute L)) (s : OStream) :
    printHeader L (xs ++ ys) s = printHeader L ys (printHeader L xs s) := by
  induction xs generalizing s with
  | nil => rfl
  | cons a rest ih => simp [printHeader, ih]

theorem printHeader_join (L : Lib) (h : List (Attribute L)) (s : OStream)
    (hb : s.basefield = Basefield.dec) :
    (printHeader L h s).out = s.out ++ String.join (h.map (attrText L)) := by
  induction h generalizing s with
  | nil => simp [printHeader]
  | cons a rest ih => simp [printHeader, ih, hb, String.append_assoc]

@[simp]
theorem printHeader_out (L : Lib) (h : List (Attribute L)) (s : OStream)
    (hb : s.basefield = Basefield.dec) :
    (printHeader L h s).out = s.out ++ headerText L h := by
  rw [headerText, printHeader_join L h s hb, printHeader_join L h cout0 rfl]
  simp

/-! ## Parts and files -/

@[simp]
theorem printPartLabel_fill {L : Lib} (inp : MultiPartInputFile L) (p : Nat) (s : OStream) :
    (printPartLabel inp p s).fill = s.fill := by
  unfold printPartLabel; split_ifs <;> simp

@[simp]
theorem printPartLabel_basefield {L : Lib} (inp : MultiPartInputFile L) (p : Nat)
    (s : OStream) : (printPartLabel inp p s).basefield = s.basefield := by
  unfold printPartLabel; split_ifs <;> simp

@[simp]
theorem printPartLabel_out {L : Lib} (inp : MultiPartInputFile L) (p : Nat) (s : OStream)
    (hb : s.basefield = Basefield.dec) :
    (printPartLabel inp p s).out = s.out ++ partLabelText inp p := by
  unfold partLabelText printPartLabel; split_ifs <;> simp [hb, String.append_assoc]

@[simp]
theorem printPart_basefield (L : Lib) (inp : MultiPartInputFile L) (p : Nat) (s : OStream)
    (hb : s.basefield = Basefield.dec) :
    (printPart L inp p s).basefield = Basefield.dec := by
  simp [printPart, hb]

theorem printPart_fill (L : Lib) (inp : MultiPartInputFile L) (p : Nat) (s : OStream)
    (hf : s.fill = ' ') : (printPart L inp p s).fill = ' ' := by
  simp [printPart, printHeader_fill, hf]

theorem partText_eq (L : Lib) (inp : MultiPartInputFile L) (p : Nat) :
    partText L inp p = partLabelText inp p ++ headerText L (inp.header p) := by
  simp [partText, printPart]

@[simp]
theorem printPart_out (L : Lib) (inp : MultiPartInputFile L) (p : Nat) (s : OStream)
    (hb : s.basefield = Basefield.dec) :
    (printPart L inp p s).out = s.out ++ partText L inp p := by
  simp [partText_eq, printPart, hb, String.append_assoc]

theorem partsLoop_spec (L : Lib) (inp : MultiPartInputFile L) (n : Nat) :
    ∀ (p : Nat) (s : OStream), p + n = inp.parts → s.basefield = Basefield.dec →
      (partsLoop L inp p s).out = s.out ++ String.join ((List.range' p n).map (partText L inp))
      ∧ (partsLoop L inp p s).basefield = Basefield.dec
      ∧ (s.fill = ' ' → (partsLoop L inp p s).fill = ' ') := by
  induction n with
  | zero =>
    intro p s hp hb
    have : ¬ p < inp.parts := by omega
    rw [partsLoop]
    simp [this, hb]
  | succ n ih =>
    intro p s hp hb
    have hlt : p < inp.parts := by omega
    rw [partsLoop]
    simp only [hlt, if_true]
    obtain ⟨h1, h2, h3⟩ := ih (p + 1) (printPart L inp p s) (by omega) (by simp [hb])
    refine ⟨?_, h2, fun hf => h3 (printPart_fill L inp p s hf)⟩
    rw [h1]
    simp [hb, List.range'_succ, String.append_assoc]

theorem fileCompleteLoop_spec {L : Lib} (inp : MultiPartInputFile L) (n : Nat) :
    ∀ (i : Nat) (b : Bool), i + n = inp.parts →
      fileCompleteLoop inp i b = (b && (List.range' i n).all inp.partComplete) := by
  induction n with
  | zero =>
    intro i b hi
    have : ¬ i < inp.parts := by omega
    rw [fileCompleteLoop]
    simp [this]
  | succ n ih =>
    intro i b hi
    have hlt : i < inp.parts := by omega
    rw [fileCompleteLoop]
    cases b
    · simp
    · simp only [hlt, true_and, if_true]
      rw [ih (i + 1) _ (by omega)]
      cases hc : inp.partComplete i <;> simp [List.range'_succ, hc]

theorem fileCompleteLoop_eq {L : Lib} (inp : MultiPartInputFile L) :
    fileCompleteLoop inp 0 true = (List.range inp.parts).all inp.partComplete := by
  rw [fileCompleteLoop_spec inp inp.parts 0 true (by omega), List.range_eq_range']
  simp

@[simp]
theorem printFileAndVersion_basefield (L : Lib) (fileName : String)
    (inp : MultiPartInputFile L) (s : OStream) :
    (printFileAndVersion L fileName inp s).basefield = Basefield.dec := by
  simp [printFileAndVersion]

@[simp]
theorem printFileAndVersion_fill (L : Lib) (fileName : String)
    (inp : MultiPartInputFile L) (s : OStream) :
    (printFileAndVersion L fileName inp s).fill = s.fill := by
  simp [printFileAndVersion]

theorem printOpened_out (L : Lib) (fileName : String) (inp : MultiPartInputFile L)
    (s : OStream) :
    (printOpened L fileName inp s).out
      = (printFileAndVersion L fileName inp s).out
        ++ String.join ((List.range inp.parts).map (partText L inp)) ++ "\n" := by
  obtain ⟨h1, -, -⟩ := partsLoop_spec L inp inp.parts 0 (printFileAndVersion L fileName inp s)
    (by omega) (by simp)
  simp [printOpened, h1, List.range_eq_range']

theorem printOpened_basefield (L : Lib) (fileName : String) (inp : MultiPartInputFile L)
    (s : OStream) : (printOpened L fileName inp s).basefield = Basefield.dec := by
  obtain ⟨-, h2, -⟩ := partsLoop_spec L inp inp.parts 0 (printFileAndVersion L fileName inp s)
    (by omega) (by simp)
  simp [printOpened, h2]

theorem printOpened_fill (L : Lib) (fileName : String) (inp : MultiPartInputFile L)
    (s : OStream) (hf : s.fill = ' ') : (printOpened L fileName inp s).fill = ' ' := by
  obtain ⟨-, -, h3⟩ := partsLoop_spec L inp inp.parts 0 (printFileAndVersion L fileName inp s)
    (by omega) (by simp)
  simp [printOpened, h3, hf]


/-! ## The dispatch on an unrecognised kind -/

/-- C1: an attribute of a kind the dispatch of `printInfo` does not recognise is
written as its name, ` (type `, its type name, `)` and one newline, nothing
else, with the formatting state untouched; and in a header the attributes
stored after it are rendered next, on the stream that line was appended to. -/
theorem unrecognised_attribute_line (L : Lib) (name typeName : String)
    (before after : List (Attribute L)) (s : OStream) :
    printAttribute L { name := name, typeName := typeName, value := AttrValue.unrecognised } s
        = put (name ++ " (type " ++ typeName ++ ")" ++ "\n") s
    ∧ printHeader L
        (before ++ { name := name, typeName := typeName, value := AttrValue.unrecognised } :: after) s
        = printHeader L after
            (put (name ++ " (type " ++ typeName ++ ")" ++ "\n") (printHeader L before s)) := by
  have h1 : ∀ t : OStream,
      printAttribute L { name := name, typeName := typeName, value := AttrValue.unrecognised } t
        = put (name ++ " (type " ++ typeName ++ ")" ++ "\n") t := by
    intro t
    simp [printAttribute, printAttributeValue, put, String.append_assoc]
  refine ⟨h1 s, ?_⟩
  rw [printHeader_append, printHeader, h1]

/-! ## Enumerations -/

/-- C2, counterexample: the ordinal 3 is outside the domain of `LineOrder`, and
`printLineOrder` writes it as the bare numeral `3`, which is not a label, a
space and the numeral. -/
theorem printLineOrder_out_of_domain_has_no_label :
    (3 : Int) ≠ INCREASING_Y ∧ (3 : Int) ≠ DECREASING_Y ∧ (3 : Int) ≠ RANDOM_Y
    ∧ (printLineOrder 3 cout0).out = "3"
    ∧ ¬ ∃ label : String, (printLineOrder 3 cout0).out = label ++ " " ++ decimal 3 := by
  refine ⟨by decide, by decide, by decide, by decide, ?_⟩
  rintro ⟨label, h⟩
  have h3 : (printLineOrder 3 cout0).out = "3" := by decide
  rw [h3] at h
  have hl := congrArg String.length h
  have hd : (decimal 3).length = 1 := by decide
  have h1 : ("3" : String).length = 1 := by decide
  have hsp : (" " : String).length = 1 := by decide
  rw [String.length_append, String.length_append, hd, h1, hsp] at hl
  omega

/-- C2, amended: with the stream in decimal base, an ordinal outside the domain
is written by `printPixelType` as `type `, by `printLevelMode` as
`level mode `, by `printLevelRoundingMode` as `mode ` and by `printEnvmap` as
`map type `, each followed by the ordinal as a signed decimal numeral, and by
`printLineOrder` as the signed decimal numeral alone; the formatting state is
kept. -/
theorem enumeration_out_of_domain (s : OStream) (hb : s.basefield = Basefield.dec) (v : Int) :
    (v ≠ UINT → v ≠ HALF → v ≠ FLOAT → printPixelType v s = put ("type " ++ decimal v) s)
    ∧ (v ≠ ONE_LEVEL → v ≠ MIPMAP_LEVELS → v ≠ RIPMAP_LEVELS →
        printLevelMode v s = put ("level mode " ++ decimal v) s)
    ∧ (v ≠ ROUND_DOWN → v ≠ ROUND_UP →
        printLevelRoundingMode v s = put ("mode " ++ decimal v) s)
    ∧ (v ≠ ENVMAP_LATLONG → v ≠ ENVMAP_CUBE → printEnvmap v s = put ("map type " ++ decimal v) s)
    ∧ (v ≠ INCREASING_Y → v ≠ DECREASING_Y → v ≠ RANDOM_Y →
        printLineOrder v s = put (decimal v) s) := by
  refine ⟨?_, ?_, ?_, ?_, ?_⟩
  · intro h1 h2 h3
    simp [printPixelType, h1, h2, h3, put, putInt, hb, String.append_assoc]
  · intro h1 h2 h3
    simp [printLevelMode, h1, h2, h3, put, putInt, hb, String.append_assoc]
  · intro h1 h2
    simp [printLevelRoundingMode, h1, h2, put, putInt, hb, String.append_assoc]
  · intro h1 h2
    simp [printEnvmap, h1, h2, put, putInt, hb, String.append_assoc]
  · intro h1 h2 h3
    simp [printLineOrder, h1, h2, h3, put, putInt, hb]

/-- C2, amended, at the ordinal 7 on the fresh stream. -/
theorem enumeration_out_of_domain_witness :
    cout0.basefield = Basefield.dec
    ∧ printPixelType 7 cout0 = put ("type " ++ decimal 7) cout0
    ∧ printLevelMode 7 cout0 = put ("level mode " ++ decimal 7) cout0
    ∧ printLevelRoundingMode 7 cout0 = put ("mode " ++ decimal 7) cout0
    ∧ printEnvmap 7 cout0 = put ("map type " ++ decimal 7) cout0
    ∧ printLineOrder 7 cout0 = put (decimal 7) cout0 :=
  ⟨rfl,
   (enumeration_out_of_domain cout0 rfl 7).1 (by decide) (by decide) (by decide),
   (enumeration_out_of_domain cout0 rfl 7).2.1 (by decide) (by decide) (by decide),
   (enumeration_out_of_domain cout0 rfl 7).2.2.1 (by decide) (by decide),
   (enumeration_out_of_domain cout0 rfl 7).2.2.2.1 (by decide) (by decide),
   (enumeration_out_of_domain cout0 rfl 7).2.2.2.2 (by decide) (by decide) (by decide)⟩

/-! ## Completeness of a file -/

theorem printFileAndVersion_out (L : Lib) (fileName : String) (inp : MultiPartInputFile L)
    (s : OStream) :
    (printFileAndVersion L fileName inp s).out
      = s.out ++ "\nfile " ++ fileName
        ++ (if fileCompleteLoop inp 0 true = true then "" else " (incomplete)") ++ ":\n\n"
        ++ "file format version: " ++ fmtInt s.basefield (L.getVersion inp.version)
        ++ ", flags 0x" ++ fmtInt Basefield.hex (L.getFlags inp.version) ++ "\n" := by
  simp [printFileAndVersion, String.append_assoc]

theorem all_range_iff {n : Nat} {f : Nat → Bool} :
    (List.range n).all f = true ↔ ∀ i, i < n → f i = true := by
  simp [List.all_eq_true]

/-- C3: the value `fileComplete` the first loop of `printInfo` computes is the
conjunction of `partComplete (i)` over all parts `i`, and the file line is
`file <name>`, then ` (incomplete)` exactly when that conjunction is false,
then a colon; the version line, the parts and the final newline follow. -/
theorem fileComplete_is_conjunction (L : Lib) (fileName : String)
    (inp : MultiPartInputFile L) (s : OStream) :
    (fileCompleteLoop inp 0 true = true ↔ ∀ i, i < inp.parts → inp.partComplete i = true)
    ∧ (printOpened L fileName inp s).out
        = s.out ++ "\nfile " ++ fileName
          ++ (if ∀ i, i < inp.parts → inp.partComplete i = true then "" else " (incomplete)")
          ++ ":\n\n"
          ++ "file format version: " ++ fmtInt s.basefield (L.getVersion inp.version)
          ++ ", flags 0x" ++ fmtInt Basefield.hex (L.getFlags inp.version) ++ "\n"
          ++ String.join ((List.range inp.parts).map (partText L inp)) ++ "\n" := by
  have hc : fileCompleteLoop inp 0 true = true
      ↔ ∀ i, i < inp.parts → inp.partComplete i = true := by
    rw [fileCompleteLoop_eq, all_range_iff]
  refine ⟨hc, ?_⟩
  rw [printOpened_out, printFileAndVersion_out]
  by_cases h : fileCompleteLoop inp 0 true = true
  · rw [if_pos h, if_pos (hc.1 h)]
  · rw [if_neg h, if_neg (fun h2 => h (hc.2 h2))]

/-! ## Order of the parts and of the attributes -/

theorem headerText_join (L : Lib) (h : List (Attribute L)) :
    headerText L h = String.join (h.map (attrText L)) := by
  rw [headerText, printHeader_join L h cout0 rfl]; simp

/-- C4: after the file line and the version line, `printInfo` writes the blocks
of the parts 0, 1, ..., parts-1 in this order, each block being the part
label followed by the text of the attributes of that part's header, one
rendering per stored attribute, in the stored order; the `endl` that ends the
output follows the last block. -/
theorem printInfo_parts_in_order (L : Lib) (fileName : String) (inp : MultiPartInputFile L)
    (s : OStream) :
    (printOpened L fileName inp s).out
      = (printFileAndVersion L fileName inp s).out
        ++ String.join ((List.range inp.parts).map
            (fun p => partLabelText inp p ++ String.join ((inp.header p).map (attrText L))))
        ++ "\n" := by
  have hblock : partText L inp
      = fun p => partLabelText inp p ++ String.join ((inp.header p).map (attrText L)) := by
    funext p
    rw [partText_eq, headerText_join]
  rw [printOpened_out, hblock]

/-! ## Part labels -/

theorem partLabelText_multi {L : Lib} (inp : MultiPartInputFile L) (hparts : inp.parts ≠ 1)
    (p : Nat) :
    partLabelText inp p
      = "\n\n part " ++ decimal p ++ (if inp.partComplete p = true then "" else " (incomplete)")
        ++ ":\n" := by
  simp [partLabelText, printPartLabel, hparts, String.append_assoc]

theorem partLabelText_single {L : Lib} (inp : MultiPartInputFile L) (hparts : inp.parts = 1)
    (p : Nat) : partLabelText inp p = "" := by
  simp [partLabelText, printPartLabel, hparts]

/-- C5: in a file whose number of parts is not 1, the block of part `p` is the
label `part <p>` on its own line after a blank line, with ` (incomplete)`
before the colon exactly when `partComplete (p)` is false, followed by the text
of the attributes of the header, which is the same whatever the completeness
flags are. For three parts of which only part 1 is incomplete, `fileComplete`
is false, the file line and the label of part 1 carry the marker, and the
blocks of parts 0 and 2 carry none. -/
theorem multipart_part_labels (L : Lib) (fileName : String) (inp : MultiPartInputFile L)
    (s : OStream) (hparts : inp.parts ≠ 1) :
    (∀ (flags : Nat → Bool) (p : Nat),
        partText L { inp with partComplete := flags } p
          = "\n\n part " ++ decimal p ++ (if flags p = true then "" else " (incomplete)") ++ ":\n"
            ++ headerText L (inp.header p))
    ∧ (printOpened L fileName inp s).out
        = (printFileAndVersion L fileName inp s).out
          ++ String.join ((List.range inp.parts).map (fun (p : Nat) =>
              "\n\n part " ++ decimal p
                ++ (if inp.partComplete p = true then "" else " (incomplete)") ++ ":\n"
                ++ headerText L (inp.header p)))
          ++ "\n"
    ∧ (inp.parts = 3 → inp.partComplete 0 = true → inp.partComplete 1 = false →
        inp.partComplete 2 = true →
        fileCompleteLoop inp 0 true = false
        ∧ (printOpened L fileName inp s).out
            = s.out ++ "\nfile " ++ fileName ++ " (incomplete):\n\n"
              ++ "file format version: " ++ fmtInt s.basefield (L.getVersion inp.version)
              ++ ", flags 0x" ++ fmtInt Basefield.hex (L.getFlags inp.version) ++ "\n"
              ++ "\n\n part 0:\n" ++ headerText L (inp.header 0)
              ++ "\n\n part 1 (incomplete):\n" ++ headerText L (inp.header 1)
              ++ "\n\n part 2:\n" ++ headerText L (inp.header 2)
              ++ "\n") := by
  have hblock : ∀ (flags : Nat → Bool) (p : Nat),
      partText L { inp with partComplete := flags } p
        = "\n\n part " ++ decimal p ++ (if flags p = true then "" else " (incomplete)") ++ ":\n"
          ++ headerText L (inp.header p) := by
    intro flags p
    rw [partText_eq, partLabelText_multi { inp with partComplete := flags } hparts p]
  have hsame : partText L inp = fun (p : Nat) =>
      "\n\n part " ++ decimal p
        ++ (if inp.partComplete p = true then "" else " (incomplete)") ++ ":\n"
        ++ headerText L (inp.header p) := by
    funext p
    exact hblock inp.partComplete p
  refine ⟨hblock, ?_, ?_⟩
  · rw [printOpened_out, hsame]
  · intro h3 c0 c1 c2
    have hfc : fileCompleteLoop inp 0 true = false := by
      rw [fileCompleteLoop_eq, h3]
      simp [List.range_succ, c0, c1]
    refine ⟨hfc, ?_⟩
    rw [printOpened_out, printFileAndVersion_out, hsame, h3, hfc]
    have hd0 : decimal 0 = "0" := by decide
    have hd1 : decimal 1 = "1" := by decide
    have hd2 : decimal 2 = "2" := by decide
    simp [List.range_succ, c0, c1, c2, hd0, hd1, hd2, String.ext_iff]

set_option maxRecDepth 100000 in
/-- C5 at the three-part file whose part 1 is incomplete, on the fresh stream:
the whole text written. -/
theorem multipart_part_labels_witness :
    sampleThreeParts.parts ≠ 1
    ∧ fileCompleteLoop sampleThreeParts 0 true = false
    ∧ (printOpened sampleLib "three.exr" sampleThreeParts cout0).out
        = "\nfile three.exr (incomplete):\n\nfile format version: 2, flags 0x1000\n"
          ++ "\n\n part 0:\ncomments (type string): \"hi\"\nfuture (type newtype)\ncount (type int): 5\n"
          ++ "\n\n part 1 (incomplete):\ncomments (type string): \"hi\"\nfuture (type newtype)\ncount (type int): 5\n"
          ++ "\n\n part 2:\ncomments (type string): \"hi\"\nfuture (type newtype)\ncount (type int): 5\n"
          ++ "\n" :=
  ⟨by decide,
   (multipart_part_labels sampleLib "three.exr" sampleThreeParts cout0 (by decide)).2.2
     rfl rfl rfl rfl⟩

/-! ## One part and several parts -/

/-- C6: for a header `h`, a file with exactly one part holding `h` is printed as
the file and version lines, the text of the attributes of `h` and the final
newline, with no part label; the block of a part holding `h` in a file whose
number of parts is not 1 is the part label followed by the same text of the
attributes of `h`. The blocks are written in decimal base, which the version
line leaves the stream in. -/
theorem single_and_multi_part_attribute_text (L : Lib) (h : List (Attribute L))
    (fileName : String) (one multi : MultiPartInputFile L) (p : Nat) (s t : OStream)
    (h1 : one.parts = 1) (hh1 : one.header 0 = h)
    (hm : multi.parts ≠ 1) (hhm : multi.header p = h)
    (ht : t.basefield = Basefield.dec) :
    (printOpened L fileName one s).out
        = (printFileAndVersion L fileName one s).out ++ headerText L h ++ "\n"
    ∧ (printPart L one 0 t).out = t.out ++ headerText L h
    ∧ (printPart L multi p t).out
        = t.out ++ "\n\n part " ++ decimal p
          ++ (if multi.partComplete p = true then "" else " (incomplete)") ++ ":\n"
          ++ headerText L h := by
  refine ⟨?_, ?_, ?_⟩
  · rw [printOpened_out, h1]
    simp [List.range_succ, partText_eq, partLabelText_single one h1, hh1]
  · rw [printPart_out L one 0 t ht, partText_eq, partLabelText_single one h1, hh1]
    simp
  · rw [printPart_out L multi p t ht, partText_eq, partLabelText_multi multi hm, hhm]
    simp [String.append_assoc]

set_option maxRecDepth 100000 in
/-- C6 at the sample header, held by the one-part file and by part 1 of the
three-part file, on the fresh stream. -/
theorem single_and_multi_part_attribute_text_witness :
    sampleOnePart.parts = 1 ∧ sampleOnePart.header 0 = sampleHeader
    ∧ sampleThreeParts.parts ≠ 1 ∧ sampleThreeParts.header 1 = sampleHeader
    ∧ cout0.basefield = Basefield.dec
    ∧ (printOpened sampleLib "one.exr" sampleOnePart cout0).out
        = (printFileAndVersion sampleLib "one.exr" sampleOnePart cout0).out
          ++ "comments (type string): \"hi\"\nfuture (type newtype)\ncount (type int): 5\n"
          ++ "\n"
    ∧ (printPart sampleLib sampleOnePart 0 cout0).out
        = "comments (type string): \"hi\"\nfuture (type newtype)\ncount (type int): 5\n"
    ∧ (printPart sampleLib sampleThreeParts 1 cout0).out
        = "\n\n part 1 (incomplete):\n"
          ++ "comments (type string): \"hi\"\nfuture (type newtype)\ncount (type int): 5\n" :=
  ⟨rfl, rfl, by decide, rfl, rfl,
   single_and_multi_part_attribute_text sampleLib sampleHeader "one.exr" sampleOnePart
     sampleThreeParts 1 cout0 cout0 rfl rfl (by decide) rfl rfl⟩


/-! ## The loops of `main` -/

theorem drop_eq_getD_cons (argv : List String) (i : Nat) (h : i < argv.length) :
    argv.drop i = argv.getD i "" :: argv.drop (i + 1) := by
  rw [List.drop_eq_getElem_cons h, List.getD_eq_getElem argv "" h]

theorem flagLoop_eq_flagScan (L : Lib) (argv : List String) (w : World) (n : Nat) :
    ∀ i, i + n = argv.length →
      flagLoop L argv i w = flagScan L (argv.getD 1 "") (argv.drop i) w := by
  induction n with
  | zero =>
    intro i hi
    have hn : ¬ i < argv.length := by omega
    rw [flagLoop, if_neg hn, List.drop_of_length_le (by omega)]
    rfl
  | succ n ih =>
    intro i hi
    have hlt : i < argv.length := by omega
    rw [flagLoop, if_pos hlt, drop_eq_getD_cons argv i hlt, flagScan, ih (i + 1) (by omega)]

theorem fileLoop_eq_runFiles (L : Lib) (files : String → Except String (MultiPartInputFile L))
    (argv : List String) (n : Nat) :
    ∀ i w, i + n = argv.length →
      fileLoop L files argv i w = runFiles L files (argv.drop i) w := by
  induction n with
  | zero =>
    intro i w hi
    have hn : ¬ i < argv.length := by omega
    rw [fileLoop, if_neg hn, List.drop_of_length_le (by omega)]
    rfl
  | succ n ih =>
    intro i w hi
    have hlt : i < argv.length := by omega
    rw [fileLoop, if_pos hlt, drop_eq_getD_cons argv i hlt, runFiles]
    rcases hr : printInfo L files (argv.getD i "") w with ⟨_ | e, w1⟩
    · simp only []
      exact ih (i + 1) w1 (by omega)
    · rfl

/-- The function `main` on a program name followed by at least one argument. -/
theorem main_cons (L : Lib) (files : String → Except String (MultiPartInputFile L))
    (prog : String) (args : List String) (w : World) (hargs : args ≠ []) :
    main L files (prog :: args) w
      = match flagScan L (args.headD "") args w with
        | some r => r
        | none =>
          match runFiles L files args w with
          | (none, w1) => (0, w1)
          | (some e, w1) =>
            (1, { w1 with cerr := w1.cerr |> put prog |> put ": " |> put e |> put "\n" }) := by
  obtain ⟨a, rest, rfl⟩ := List.exists_cons_of_ne_nil hargs
  have hlen : ¬ (prog :: a :: rest).length < 2 := by simp
  rw [main, if_neg hlen,
    flagLoop_eq_flagScan L (prog :: a :: rest) w (rest.length + 1) 1 (by simp; omega),
    fileLoop_eq_runFiles L files (prog :: a :: rest) (rest.length + 1) 1 w (by simp; omega)]
  rfl

theorem flagScan_none (L : Lib) (first : String) (args : List String) (w : World)
    (hfirst : first ≠ "--help")
    (hargs : ∀ a ∈ args, a ≠ "-h" ∧ a ≠ "--version") :
    flagScan L first args w = none := by
  induction args with
  | nil => rfl
  | cons a rest ih =>
    have ha := hargs a (List.mem_cons_self a rest)
    simp only [flagScan, ha.1, ha.2, hfirst, or_self, if_false]
    exact ih (fun b hb => hargs b (List.mem_cons_of_mem a hb))

theorem runFiles_first_failure (L : Lib)
    (files : String → Except String (MultiPartInputFile L))
    (ok : List String) (bad : String) (rest : List String) (e : String)
    (hok : ∀ f ∈ ok, ∃ inp, files f = Except.ok inp)
    (hbad : files bad = Except.error e) :
    ∀ w : World,
      (runFiles L files (ok ++ bad :: rest) w).1 = some e
      ∧ (runFiles L files (ok ++ bad :: rest) w).2.invoked = w.invoked ++ ok ++ [bad]
      ∧ (runFiles L files (ok ++ bad :: rest) w).2.cerr = w.cerr
      ∧ (runFiles L files (ok ++ bad :: rest) w).2.cout = (runFiles L files ok w).2.cout
      ∧ (runFiles L files ok w).1 = none := by
  induction ok with
  | nil =>
    intro w
    simp [runFiles, printInfo, hbad]
  | cons f fs ih =>
    intro w
    obtain ⟨inp, hf⟩ := hok f (List.mem_cons_self f fs)
    have ih2 := ih (fun g hg => hok g (List.mem_cons_of_mem f hg))
    simp only [List.cons_append, runFiles, printInfo, hf]
    obtain ⟨h1, h2, h3, h4, h5⟩ := ih2
      { cout := printOpened L f inp w.cout, cerr := w.cerr, invoked := w.invoked ++ [f] }
    exact ⟨h1, h2.trans (by simp), h3, h4, h5⟩

/-! ## A failing input -/

/-- C7, counterexample: with the arguments `bad.exr one.exr`, of which the first
cannot be opened and the second can, `main` calls `printInfo` on `bad.exr`
only: `one.exr`, the input after the failing one, is never processed, nothing
is written to `cout` and the exit status is 1. -/
theorem main_skips_inputs_after_a_failure :
    sampleFiles "bad.exr" = Except.error "Cannot open image file \"bad.exr\"."
    ∧ sampleFiles "one.exr" = Except.ok sampleOnePart
    ∧ (main sampleLib sampleFiles ["exrheader", "bad.exr", "one.exr"] World.init).1 = 1
    ∧ (main sampleLib sampleFiles ["exrheader", "bad.exr", "one.exr"] World.init).2.invoked
        = ["bad.exr"]
    ∧ "one.exr" ∉
        (main sampleLib sampleFiles ["exrheader", "bad.exr", "one.exr"] World.init).2.invoked
    ∧ (main sampleLib sampleFiles ["exrheader", "bad.exr", "one.exr"] World.init).2.cout
        = cout0 := by
  have hbad : sampleFiles "bad.exr" = Except.error "Cannot open image file \"bad.exr\"." := by
    simp [sampleFiles]
  have hone : sampleFiles "one.exr" = Except.ok sampleOnePart := by
    simp [sampleFiles]
  have hmain : main sampleLib sampleFiles ["exrheader", "bad.exr", "one.exr"] World.init
      = (1, { cout := cout0,
              cerr := cout0 |> put "exrheader" |> put ": "
                |> put "Cannot open image file \"bad.exr\"." |> put "\n",
              invoked := ["bad.exr"] }) := by
    rw [main_cons _ _ _ _ _ (by simp)]
    simp [flagScan, runFiles, printInfo, hbad, World.init]
  rw [hmain]
  exact ⟨hbad, hone, rfl, rfl, by decide, rfl⟩

/-- C7, amended: when no argument is a flag, the files `ok` before the first
failing one can all be opened and opening `bad` throws with message `e`, then
`main` calls `printInfo` on the files of `ok` in order and then on `bad`, and on
no argument after `bad`; it writes the program name, `: `, the message and a
newline to `cerr` and returns 1. -/
theorem main_stops_at_first_failing_input (L : Lib)
    (files : String → Except String (MultiPartInputFile L))
    (prog : String) (ok : List String) (bad : String) (rest : List String) (e : String)
    (w : World)
    (hflags : ∀ a ∈ ok ++ bad :: rest, a ≠ "-h" ∧ a ≠ "--help" ∧ a ≠ "--version")
    (hok : ∀ f ∈ ok, ∃ inp, files f = Except.ok inp)
    (hbad : files bad = Except.error e) :
    (main L files (prog :: (ok ++ bad :: rest)) w).1 = 1
    ∧ (main L files (prog :: (ok ++ bad :: rest)) w).2.invoked = w.invoked ++ ok ++ [bad]
    ∧ (main L files (prog :: (ok ++ bad :: rest)) w).2.cerr
        = put (prog ++ ": " ++ e ++ "\n") w.cerr := by
  have hne : ok ++ bad :: rest ≠ [] := by simp
  have hhead : (ok ++ bad :: rest).headD "" ≠ "--help" := by
    obtain ⟨a, l, hal⟩ := List.exists_cons_of_ne_nil hne
    have hmem : a ∈ ok ++ bad :: rest := by rw [hal]; exact List.mem_cons_self a l
    rw [hal]
    exact (hflags a hmem).2.1
  have hscan : flagScan L ((ok ++ bad :: rest).headD "") (ok ++ bad :: rest) w = none :=
    flagScan_none L _ _ w hhead (fun a ha => ⟨(hflags a ha).1, (hflags a ha).2.2⟩)
  obtain ⟨h1, h2, h3, -, -⟩ := runFiles_first_failure L files ok bad rest e hok hbad w
  rw [main_cons L files prog _ w hne, hscan]
  rcases hr : runFiles L files (ok ++ bad :: rest) w with ⟨r, w1⟩
  rw [hr] at h1 h2 h3
  simp only at h1 h2 h3
  subst h1
  simp only [h2, h3, true_and]
  simp [put, String.append_assoc]

/-- C7, amended, at the arguments `one.exr bad.exr three.exr`: `printInfo` is
called on `one.exr` and `bad.exr`, not on `three.exr`. -/
theorem main_stops_at_first_failing_input_witness :
    (∀ a ∈ ["one.exr"] ++ "bad.exr" :: ["three.exr"],
        a ≠ "-h" ∧ a ≠ "--help" ∧ a ≠ "--version")
    ∧ (∀ f ∈ ["one.exr"], ∃ inp, sampleFiles f = Except.ok inp)
    ∧ sampleFiles "bad.exr" = Except.error "Cannot open image file \"bad.exr\"."
    ∧ (main sampleLib sampleFiles ("exrheader" :: (["one.exr"] ++ "bad.exr" :: ["three.exr"]))
        World.init).1 = 1
    ∧ (main sampleLib sampleFiles ("exrheader" :: (["one.exr"] ++ "bad.exr" :: ["three.exr"]))
        World.init).2.invoked = World.init.invoked ++ ["one.exr"] ++ ["bad.exr"]
    ∧ (main sampleLib sampleFiles ("exrheader" :: (["one.exr"] ++ "bad.exr" :: ["three.exr"]))
        World.init).2.cerr
        = put ("exrheader" ++ ": " ++ "Cannot open image file \"bad.exr\"." ++ "\n")
            World.init.cerr :=
  ⟨by decide,
   fun f hf => ⟨sampleOnePart, by rw [List.mem_singleton.1 hf]; simp [sampleFiles]⟩,
   by simp [sampleFiles],
   main_stops_at_first_failing_input sampleLib sampleFiles "exrheader" ["one.exr"] "bad.exr"
     ["three.exr"] "Cannot open image file \"bad.exr\"." World.init (by decide)
     (fun f hf => ⟨sampleOnePart, by rw [List.mem_singleton.1 hf]; simp [sampleFiles]⟩)
     (by simp [sampleFiles])⟩

/-! ## The flags of `main` -/

/-- C8, the program at the failing input: with the arguments `one.exr --help`
the test of `argv[1]` against `--help` fails at every index, so `main` prints
no help text; it calls `printInfo` on `one.exr` and on `--help`, and returns 1
when the file `--help` cannot be opened. With `-h` in the same position the
help text is written, no file is processed and the status is 0. -/
theorem help_flag_after_first_argument_is_missed :
    (main sampleLib sampleFiles ["exrheader", "one.exr", "--help"] World.init).1 = 1
    ∧ (main sampleLib sampleFiles ["exrheader", "one.exr", "--help"] World.init).2.invoked
        = ["one.exr", "--help"]
    ∧ (main sampleLib sampleFiles ["exrheader", "one.exr", "--help"] World.init).2.cout
        = printOpened sampleLib "one.exr" sampleOnePart cout0
    ∧ main sampleLib sampleFiles ["exrheader", "one.exr", "-h"] World.init
        = (0, { World.init with cout := usageMessage "exrheader" true cout0 }) := by
  have hone : sampleFiles "one.exr" = Except.ok sampleOnePart := by
    simp [sampleFiles]
  have hhelp : sampleFiles "--help" = Except.error "Cannot open image file \"--help\"." := by
    simp [sampleFiles]
  have hmain : main sampleLib sampleFiles ["exrheader", "one.exr", "--help"] World.init
      = (1, { cout := printOpened sampleLib "one.exr" sampleOnePart cout0,
              cerr := cout0 |> put "exrheader" |> put ": "
                |> put "Cannot open image file \"--help\"." |> put "\n",
              invoked := ["one.exr", "--help"] }) := by
    rw [main_cons _ _ _ _ _ (by simp)]
    simp [flagScan, runFiles, printInfo, hone, hhelp, World.init]
  have hh : main sampleLib sampleFiles ["exrheader", "one.exr", "-h"] World.init
      = (0, { World.init with cout := usageMessage "exrheader" true cout0 }) := by
    rw [main_cons _ _ _ _ _ (by simp)]
    simp [flagScan, World.init]
  rw [hmain]
  exact ⟨rfl, rfl, rfl, hh⟩

/-! ## The formatting state across an attribute -/

/-- C9: on the stream as `printInfo` has it when it renders an attribute (fill
character blank, decimal base), rendering any attribute, a time code included,
leaves the fill character and the base as they were; hence the text written
for an attribute is the same on the fresh stream, right after the same
attribute, and right after any other attribute. The file and version lines,
which switch to base 16 and back, and the whole of what `printInfo` writes for
a file leave the stream in that state as well. -/
theorem rendering_keeps_formatting_state (L : Lib) (a b : Attribute L) (fileName : String)
    (inp : MultiPartInputFile L) (s : OStream)
    (hf : s.fill = ' ') (hb : s.basefield = Basefield.dec) :
    (printAttribute L a s).fill = s.fill
    ∧ (printAttribute L a s).basefield = s.basefield
    ∧ (printAttribute L a s).out = s.out ++ (printAttribute L a cout0).out
    ∧ (printAttribute L a (printAttribute L a s)).out
        = s.out ++ (printAttribute L a cout0).out ++ (printAttribute L a cout0).out
    ∧ (printAttribute L a (printAttribute L b s)).out
        = (printAttribute L b s).out ++ (printAttribute L a cout0).out
    ∧ (printFileAndVersion L fileName inp s).fill = s.fill
    ∧ (printFileAndVersion L fileName inp s).basefield = s.basefield
    ∧ (printOpened L fileName inp s).fill = s.fill
    ∧ (printOpened L fileName inp s).basefield = s.basefield := by
  have h1 : (printAttribute L a s).out = s.out ++ (printAttribute L a cout0).out :=
    printAttribute_out L a s hb
  have h2 : (printAttribute L a s).basefield = Basefield.dec := printAttribute_basefield L a s hb
  have h3 : (printAttribute L b s).basefield = Basefield.dec := printAttribute_basefield L b s hb
  refine ⟨?_, ?_, h1, ?_, ?_, ?_, ?_, ?_, ?_⟩
  · rw [printAttribute_fill L a s hf, hf]
  · rw [h2, hb]
  · rw [printAttribute_out L a _ h2, h1]
    rfl
  · rw [printAttribute_out L a _ h3]
    rfl
  · simp
  · simp [hb]
  · rw [printOpened_fill L fileName inp s hf, hf]
  · rw [printOpened_basefield, hb]

set_option maxRecDepth 100000 in
/-- C9 at the sample time code on the fresh stream: the state after it is the
state before it, and the integer written after it is in decimal. -/
theorem rendering_keeps_formatting_state_witness :
    cout0.fill = ' ' ∧ cout0.basefield = Basefield.dec
    ∧ (printAttribute sampleLib sampleTimeCode cout0).fill = cout0.fill
    ∧ (printAttribute sampleLib sampleTimeCode cout0).basefield = cout0.basefield
    ∧ (printAttribute sampleLib sampleTimeCode cout0).out
        = cout0.out ++ (printAttribute sampleLib sampleTimeCode cout0).out
    ∧ (printAttribute sampleLib sampleTimeCode
          (printAttribute sampleLib sampleTimeCode cout0)).out
        = cout0.out ++ (printAttribute sampleLib sampleTimeCode cout0).out
          ++ (printAttribute sampleLib sampleTimeCode cout0).out
    ∧ (printAttribute sampleLib sampleTimeCode (printAttribute sampleLib sampleInt cout0)).out
        = (printAttribute sampleLib sampleInt cout0).out
          ++ (printAttribute sampleLib sampleTimeCode cout0).out
    ∧ (printFileAndVersion sampleLib "one.exr" sampleOnePart cout0).fill = cout0.fill
    ∧ (printFileAndVersion sampleLib "one.exr" sampleOnePart cout0).basefield
        = cout0.basefield
    ∧ (printOpened sampleLib "one.exr" sampleOnePart cout0).fill = cout0.fill
    ∧ (printOpened sampleLib "one.exr" sampleOnePart cout0).basefield = cout0.basefield :=
  ⟨rfl, rfl,
   rendering_keeps_formatting_state sampleLib sampleTimeCode sampleInt "one.exr" sampleOnePart
     cout0 rfl rfl⟩

/-! ## Channel lists -/

/-- C10: with the stream in decimal base, `printChannelList` appends, for each
channel in list order, one line made of a newline and four blanks, the name, a
comma, the label `printPixelType` writes for the channel's type, `, sampling `,
the two sampling rates separated by a blank, and `, plinear` exactly when the
channel's `pLinear` is set; nothing else is written and the formatting state is
kept. For the single channel `R` of type `HALF` with sampling 1 1 and `pLinear`
false the text is one line without `, plinear`. -/
theorem printChannelList_one_line_per_channel (cl : List (String × Channel)) (s : OStream)
    (hb : s.basefield = Basefield.dec) :
    printChannelList cl s
        = put (String.join (cl.map (fun i =>
            "\n    " ++ i.1 ++ ", " ++ (printPixelType i.2.type cout0).out
              ++ ", sampling " ++ decimal i.2.xSampling ++ " " ++ decimal i.2.ySampling
              ++ (if i.2.pLinear = true then ", plinear" else "")))) s
    ∧ printChannelList
          [("R", { type := HALF, xSampling := 1, ySampling := 1, pLinear := false })] s
        = put "\n    R, 16-bit floating-point, sampling 1 1" s := by
  have hgen : ∀ l : List (String × Channel),
      printChannelList l s = put (String.join (l.map channelLine)) s := by
    intro l
    apply OStream.ext3
    · rw [printChannelList_lines l s hb]; rfl
    · simp
    · simp
  refine ⟨hgen cl, ?_⟩
  rw [hgen]
  have hline : channelLine ("R", { type := HALF, xSampling := 1, ySampling := 1, pLinear := false })
      = "\n    R, 16-bit floating-point, sampling 1 1" := by decide
  simp [hline]

/-- C10 at a list of two channels on the fresh stream, the second one with
`pLinear` set: two lines, the second one ending in `, plinear`. -/
theorem printChannelList_one_line_per_channel_witness :
    cout0.basefield = Basefield.dec
    ∧ printChannelList
          [("A", { type := FLOAT, xSampling := 1, ySampling := 1, pLinear := false }),
           ("Z", { type := 7, xSampling := 2, ySampling := 2, pLinear := true })] cout0
        = put ("\n    A, 32-bit floating-point, sampling 1 1"
            ++ "\n    Z, type 7, sampling 2 2, plinear") cout0
    ∧ printChannelList
          [("R", { type := HALF, xSampling := 1, ySampling := 1, pLinear := false })] cout0
        = put "\n    R, 16-bit floating-point, sampling 1 1" cout0 :=
  ⟨rfl,
   printChannelList_one_line_per_channel
     [("A", { type := FLOAT, xSampling := 1, ySampling := 1, pLinear := false }),
      ("Z", { type := 7, xSampling := 2, ySampling := 2, pLinear := true })] cout0 rfl⟩

/-! ## Tile descriptions and string vectors -/

/-- C12: with the stream in decimal base, the value body of a tile description
is a colon, then on a new line the label `printLevelMode` writes for the mode,
then the line `tile size <xSize> by <ySize> pixels`, and the line
`level sizes rounded ` with the label `printLevelRoundingMode` writes is
appended exactly when the mode is not `ONE_LEVEL`, an out-of-domain mode
included; for the mode `ONE_LEVEL` the text is the same for every rounding
mode `r`. -/
theorem tile_description_rendering (L : Lib) (td : TileDescription) (r : Int) (s : OStream)
    (hb : s.basefield = Basefield.dec) :
    printAttributeValue L (AttrValue.tiledesc td) s
        = put (":\n    " ++ (printLevelMode td.mode cout0).out
            ++ "\n    tile size " ++ digits 10 td.xSize ++ " by " ++ digits 10 td.ySize
            ++ " pixels"
            ++ (if td.mode ≠ ONE_LEVEL then
                  "\n    level sizes rounded "
                    ++ (printLevelRoundingMode td.roundingMode cout0).out
                else "")) s
    ∧ printAttributeValue L
          (AttrValue.tiledesc
            { xSize := td.xSize, ySize := td.ySize, mode := ONE_LEVEL, roundingMode := r }) s
        = put (":\n    single level\n    tile size " ++ digits 10 td.xSize ++ " by "
            ++ digits 10 td.ySize ++ " pixels") s := by
  have hlm : (printLevelMode td.mode cout0).out = levelModeText td.mode := rfl
  have hrm : (printLevelRoundingMode td.roundingMode cout0).out
      = levelRoundingModeText td.roundingMode := rfl
  rw [hlm, hrm]
  constructor
  · apply OStream.ext3
    · by_cases hm : td.mode = ONE_LEVEL
      · simp [printAttributeValue, hb, hm, String.append_assoc]
      · simp [printAttributeValue, hb, hm, String.ext_iff]
    · by_cases hm : td.mode = ONE_LEVEL <;> simp [printAttributeValue, hm]
    · by_cases hm : td.mode = ONE_LEVEL <;> simp [printAttributeValue, hm]
  · apply OStream.ext3
    · have hl : levelModeText ONE_LEVEL = "single level" := by decide
      simp [printAttributeValue, hb, hl, String.ext_iff]
    · simp [printAttributeValue]
    · simp [printAttributeValue]

/-- C12 at a mip-map tile description with an out-of-domain rounding mode, on
the fresh stream. -/
theorem tile_description_rendering_witness :
    cout0.basefield = Basefield.dec
    ∧ printAttributeValue sampleLib
          (AttrValue.tiledesc { xSize := 64, ySize := 32, mode := MIPMAP_LEVELS,
                                roundingMode := 5 }) cout0
        = put (":\n    mip-map\n    tile size 64 by 32 pixels"
            ++ "\n    level sizes rounded mode 5") cout0
    ∧ printAttributeValue sampleLib
          (AttrValue.tiledesc { xSize := 64, ySize := 32, mode := ONE_LEVEL,
                                roundingMode := 5 }) cout0
        = put ":\n    single level\n    tile size 64 by 32 pixels" cout0 :=
  ⟨rfl,
   tile_description_rendering sampleLib
     { xSize := 64, ySize := 32, mode := MIPMAP_LEVELS, roundingMode := 5 } 5 cout0 rfl⟩

theorem stringVectorText_eq (v : List String) :
    stringVectorText v = String.join (v.map (fun i => "\n    \"" ++ i ++ "\"")) := by
  rw [stringVectorText, printStringVector_lines v cout0]
  simp

/-- C13: the value body of a string vector is a colon followed, for each string
of the vector in stored order, duplicates included, by a newline, four blanks
and the string between double quotes; there are as many quoted lines as the
vector has strings, and for the empty vector the body is the colon alone. -/
theorem string_vector_rendering (L : Lib) (v : List String) (s : OStream) :
    printAttributeValue L (AttrValue.stringvector v) s
        = put (":" ++ String.join (v.map (fun i => "\n    \"" ++ i ++ "\""))) s
    ∧ (v.map (fun i => "\n    \"" ++ i ++ "\"")).length = v.length
    ∧ printAttributeValue L (AttrValue.stringvector []) s = put ":" s := by
  refine ⟨?_, by simp, ?_⟩
  · apply OStream.ext3
    · simp [printAttributeValue, stringVectorText_eq, String.append_assoc]
    · simp [printAttributeValue]
    · simp [printAttributeValue]
  · rfl

/-! ## The value body of a recognised attribute -/

theorem colon_append_ne_newline (rest tail : String) : ":" ++ rest ++ tail ≠ "\n" := by
  intro h
  have h1 := congrArg String.data h
  simp at h1

theorem eq_colon_append_of_head {t : String} (h : t.data.head? = some ':') :
    ∃ rest, t = ":" ++ rest := by
  rcases t with ⟨_ | ⟨c, l⟩⟩
  · simp at h
  · simp at h
    subst h
    exact ⟨String.mk l, rfl⟩

theorem attrValueText_head (L : Lib) (a : AttrValue L) (ha : a ≠ AttrValue.unrecognised) :
    (attrValueText L a).data.head? = some ':' := by
  cases a <;> simp [attrValueText, printAttributeValue] at ha ⊢
  case tiledesc td => split_ifs <;> simp

/-- C15: with the stream in decimal base, what `printInfo` writes for an
attribute is its name, ` (type `, its type name, `)`, the value body and a
newline; for an attribute of a recognised kind the value body begins with a
colon, so it is not empty; and the text is the bare name-and-type line exactly
when the kind is unrecognised. -/
theorem value_body_begins_with_colon (L : Lib) (a : Attribute L) (s : OStream)
    (hb : s.basefield = Basefield.dec) :
    (printAttribute L a s).out
        = s.out ++ (a.name ++ " (type " ++ a.typeName ++ ")")
          ++ (printAttributeValue L a.value cout0).out ++ "\n"
    ∧ (a.value ≠ AttrValue.unrecognised →
        ∃ rest, (printAttributeValue L a.value cout0).out = ":" ++ rest)
    ∧ ((printAttribute L a s).out
          = s.out ++ (a.name ++ " (type " ++ a.typeName ++ ")") ++ "\n"
        ↔ a.value = AttrValue.unrecognised) := by
  have hout : (printAttribute L a s).out
      = s.out ++ (a.name ++ " (type " ++ a.typeName ++ ")")
        ++ (printAttributeValue L a.value cout0).out ++ "\n" := by
    have hv : (printAttributeValue L a.value cout0).out = attrValueText L a.value := rfl
    rw [hv]
    simp [printAttribute, hb, String.append_assoc]
  have hcolon : a.value ≠ AttrValue.unrecognised →
      ∃ rest, (printAttributeValue L a.value cout0).out = ":" ++ rest :=
    fun ha => eq_colon_append_of_head (attrValueText_head L a.value ha)
  refine ⟨hout, hcolon, ?_, ?_⟩
  · intro h
    by_contra ha
    obtain ⟨rest, hrest⟩ := hcolon ha
    rw [hout, hrest, String.append_assoc] at h
    exact colon_append_ne_newline rest "\n" (append_cancel_left h)
  · intro ha
    rw [hout, ha]
    simp [printAttributeValue]

/-- C15 at the integer attribute `count` on the fresh stream: the value body
is `: 255`. -/
theorem value_body_begins_with_colon_witness :
    cout0.basefield = Basefield.dec
    ∧ sampleInt.value ≠ AttrValue.unrecognised
    ∧ (printAttribute sampleLib sampleInt cout0).out = "count (type int): 255\n"
    ∧ ∃ rest, (printAttributeValue sampleLib sampleInt.value cout0).out = ":" ++ rest :=
  ⟨rfl, fun h => AttrValue.noConfusion h,
   (value_body_begins_with_colon sampleLib sampleInt cout0 rfl).1,
   (value_body_begins_with_colon sampleLib sampleInt cout0 rfl).2.1
     (fun h => AttrValue.noConfusion h)⟩

/-! ## Time codes -/

theorem padLeft_two_digits (n : Nat) (hn : n < 100) :
    padLeft '0' 2 (decimal (n : Int))
      = String.mk [Nat.digitChar (n / 10), Nat.digitChar (n % 10)] := by
  revert n
  decide

theorem padLeft_twoDigits (v : Int) (h0 : 0 ≤ v) (h99 : v ≤ 99) :
    padLeft '0' 2 (decimal v) = twoDigits v := by
  obtain ⟨n, rfl⟩ := Int.eq_ofNat_of_zero_le h0
  have hn : n < 100 := by omega
  rw [padLeft_two_digits n hn]
  rfl

/-- C11: with the stream in decimal base and hours, minutes, seconds and frame
each between 0 and 99, `printTimeCode` appends the line `time ` with the four
fields as two decimal digits each, zero-padded and separated by colons; the
line with `drop frame`, `color frame` and `field/phase`, each followed by 0 or
1; the line with `bgf0`, `bgf1` and `bgf2`, each followed by 0 or 1; and
`user data 0x` followed by the user data in hexadecimal. For 01:02:03:04 with
no flag set and user data 0 the text shows `01:02:03:04`, every flag `0` and
`0x0`. -/
theorem printTimeCode_rendering (tc : TimeCode) (s : OStream)
    (hb : s.basefield = Basefield.dec)
    (hh : 0 ≤ tc.hours ∧ tc.hours ≤ 99) (hm : 0 ≤ tc.minutes ∧ tc.minutes ≤ 99)
    (hs : 0 ≤ tc.seconds ∧ tc.seconds ≤ 99) (hfr : 0 ≤ tc.frame ∧ tc.frame ≤ 99) :
    (printTimeCode tc s).out
        = s.out ++ "    time " ++ twoDigits tc.hours ++ ":" ++ twoDigits tc.minutes ++ ":"
          ++ twoDigits tc.seconds ++ ":" ++ twoDigits tc.frame ++ "\n"
          ++ "    drop frame " ++ (if tc.dropFrame = true then "1" else "0")
          ++ ", color frame " ++ (if tc.colorFrame = true then "1" else "0")
          ++ ", field/phase " ++ (if tc.fieldPhase = true then "1" else "0") ++ "\n"
          ++ "    bgf0 " ++ (if tc.bgf0 = true then "1" else "0")
          ++ ", bgf1 " ++ (if tc.bgf1 = true then "1" else "0")
          ++ ", bgf2 " ++ (if tc.bgf2 = true then "1" else "0") ++ "\n"
          ++ "    user data 0x" ++ digits 16 tc.userData
    ∧ (twoDigits tc.hours).length = 2 ∧ (twoDigits tc.minutes).length = 2
    ∧ (twoDigits tc.seconds).length = 2 ∧ (twoDigits tc.frame).length = 2
    ∧ (printTimeCode sampleTimeCodeValue s).out
        = s.out ++ "    time 01:02:03:04\n"
          ++ "    drop frame 0, color frame 0, field/phase 0\n"
          ++ "    bgf0 0, bgf1 0, bgf2 0\n"
          ++ "    user data 0x0" := by
  have hgen : ∀ t : TimeCode, (0 ≤ t.hours ∧ t.hours ≤ 99) → (0 ≤ t.minutes ∧ t.minutes ≤ 99) →
      (0 ≤ t.seconds ∧ t.seconds ≤ 99) → (0 ≤ t.frame ∧ t.frame ≤ 99) →
      (printTimeCode t s).out
        = s.out ++ "    time " ++ twoDigits t.hours ++ ":" ++ twoDigits t.minutes ++ ":"
          ++ twoDigits t.seconds ++ ":" ++ twoDigits t.frame ++ "\n"
          ++ "    drop frame " ++ (if t.dropFrame = true then "1" else "0")
          ++ ", color frame " ++ (if t.colorFrame = true then "1" else "0")
          ++ ", field/phase " ++ (if t.fieldPhase = true then "1" else "0") ++ "\n"
          ++ "    bgf0 " ++ (if t.bgf0 = true then "1" else "0")
          ++ ", bgf1 " ++ (if t.bgf1 = true then "1" else "0")
          ++ ", bgf2 " ++ (if t.bgf2 = true then "1" else "0") ++ "\n"
          ++ "    user data 0x" ++ digits 16 t.userData := by
    intro t h1 h2 h3 h4
    simp only [printTimeCode, put_out, putIntW_out, putIntW_fill, putIntW_basefield, put_fill,
      put_basefield, setfill_out, setfill_fill, setfill_basefield, putBool_out, putBool_fill,
      putBool_basefield, hex_out, hex_basefield, dec_out, putUInt_out, hb, fmtInt_dec,
      padLeft_twoDigits _ h1.1 h1.2, padLeft_twoDigits _ h2.1 h2.2,
      padLeft_twoDigits _ h3.1 h3.2, padLeft_twoDigits _ h4.1 h4.2, fmtUInt,
      String.append_assoc]
    simp [String.ext_iff]
  refine ⟨hgen tc hh hm hs hfr, rfl, rfl, rfl, rfl, ?_⟩
  rw [hgen sampleTimeCodeValue (by decide) (by decide) (by decide) (by decide)]
  have e1 : twoDigits sampleTimeCodeValue.hours = "01" := by decide
  have e2 : twoDigits sampleTimeCodeValue.minutes = "02" := by decide
  have e3 : twoDigits sampleTimeCodeValue.seconds = "03" := by decide
  have e4 : twoDigits sampleTimeCodeValue.frame = "04" := by decide
  have e5 : digits 16 sampleTimeCodeValue.userData = "0" := by decide
  rw [e1, e2, e3, e4, e5]
  simp [sampleTimeCodeValue, String.ext_iff]

set_option maxRecDepth 100000 in
/-- C11 at the time code 23:59:07:00 with drop frame and bgf1 set and user data
255, on the fresh stream. -/
theorem printTimeCode_rendering_witness :
    cout0.basefield = Basefield.dec
    ∧ (0 ≤ sampleTimeCodeLate.hours ∧ sampleTimeCodeLate.hours ≤ 99)
    ∧ (0 ≤ sampleTimeCodeLate.minutes ∧ sampleTimeCodeLate.minutes ≤ 99)
    ∧ (0 ≤ sampleTimeCodeLate.seconds ∧ sampleTimeCodeLate.seconds ≤ 99)
    ∧ (0 ≤ sampleTimeCodeLate.frame ∧ sampleTimeCodeLate.frame ≤ 99)
    ∧ (printTimeCode sampleTimeCodeLate cout0).out
        = "    time 23:59:07:00\n"
          ++ "    drop frame 1, color frame 0, field/phase 0\n"
          ++ "    bgf0 0, bgf1 1, bgf2 0\n"
          ++ "    user data 0xff" :=
  ⟨rfl, by decide, by decide, by decide, by decide,
   (printTimeCode_rendering sampleTimeCodeLate cout0 rfl (by decide) (by decide) (by decide)
     (by decide)).1⟩

/-! ## The output written before a failing input -/

theorem printOpened_out_dec (L : Lib) (fileName : String) (inp : MultiPartInputFile L)
    (s : OStream) (hb : s.basefield = Basefield.dec) :
    (printOpened L fileName inp s).out = s.out ++ (printOpened L fileName inp cout0).out := by
  rw [printOpened_out, printOpened_out, printFileAndVersion_out, printFileAndVersion_out, hb]
  simp [String.append_assoc]

/-- Files that all open leave on `cout` the text each of them writes on its
own, one after the other. -/
theorem runFiles_ok_cout (L : Lib) (files : String → Except String (MultiPartInputFile L))
    (ok : List String) (hok : ∀ f ∈ ok, ∃ inp, files f = Except.ok inp) :
    ∀ w : World, w.cout.basefield = Basefield.dec →
      (runFiles L files ok w).2.cout.out
        = w.cout.out
          ++ String.join (ok.map (fun f => (printInfo L files f World.init).2.cout.out)) := by
  induction ok with
  | nil =>
    intro w _
    simp [runFiles]
  | cons f fs ih =>
    intro w hw
    obtain ⟨inp, hf⟩ := hok f (List.mem_cons_self f fs)
    have ih2 := ih (fun g hg => hok g (List.mem_cons_of_mem f hg))
      { cout := printOpened L f inp w.cout, cerr := w.cerr, invoked := w.invoked ++ [f] }
      (printOpened_basefield L f inp w.cout)
    have hrun : printInfo L files f w
        = (none, { cout := printOpened L f inp w.cout, cerr := w.cerr,
                   invoked := w.invoked ++ [f] }) := by
      simp [printInfo, hf]
    have hown : (printInfo L files f World.init).2.cout.out
        = (printOpened L f inp cout0).out := by
      simp [printInfo, hf, World.init]
    simp only [runFiles, List.map_cons, join_cons]
    rw [hrun]
    simp only []
    rw [ih2, hown, printOpened_out_dec L f inp w.cout hw, String.append_assoc]

/-- C14: when no argument is a flag, the files `ok` before the failing one can
all be opened and opening `bad` throws with message `e`, `main` returns 1 after
appending the program name, `: `, the message and a newline to `cerr`; and
`cout` is then exactly as `main` leaves it when given the files of `ok` alone:
with `cout` in decimal base at the start, its text is the text already there
followed by what `printInfo` writes for each file of `ok` on its own, in
order, nothing removed and nothing changed. -/
theorem main_failure_keeps_earlier_output (L : Lib)
    (files : String → Except String (MultiPartInputFile L))
    (prog : String) (ok : List String) (bad : String) (rest : List String) (e : String)
    (w : World)
    (hflags : ∀ a ∈ ok ++ bad :: rest, a ≠ "-h" ∧ a ≠ "--help" ∧ a ≠ "--version")
    (hok : ∀ f ∈ ok, ∃ inp, files f = Except.ok inp)
    (hbad : files bad = Except.error e)
    (hw : w.cout.basefield = Basefield.dec) :
    (main L files (prog :: (ok ++ bad :: rest)) w).1 = 1
    ∧ (main L files (prog :: (ok ++ bad :: rest)) w).2.cerr.out
        = w.cerr.out ++ (prog ++ ": " ++ e ++ "\n")
    ∧ (main L files (prog :: (ok ++ bad :: rest)) w).2.cout
        = (main L files (prog :: ok) w).2.cout
    ∧ (main L files (prog :: (ok ++ bad :: rest)) w).2.cout.out
        = w.cout.out
          ++ String.join (ok.map (fun f => (printInfo L files f World.init).2.cout.out)) := by
  have hne : ok ++ bad :: rest ≠ [] := by simp
  have hhead : (ok ++ bad :: rest).headD "" ≠ "--help" := by
    obtain ⟨a, l, hal⟩ := List.exists_cons_of_ne_nil hne
    have hmem : a ∈ ok ++ bad :: rest := by rw [hal]; exact List.mem_cons_self a l
    rw [hal]
    exact (hflags a hmem).2.1
  have hscan : flagScan L ((ok ++ bad :: rest).headD "") (ok ++ bad :: rest) w = none :=
    flagScan_none L _ _ w hhead (fun a ha => ⟨(hflags a ha).1, (hflags a ha).2.2⟩)
  obtain ⟨h1, -, h3, h4, h5⟩ := runFiles_first_failure L files ok bad rest e hok hbad w
  have hmain : main L files (prog :: (ok ++ bad :: rest)) w
      = (1, { (runFiles L files (ok ++ bad :: rest) w).2 with
              cerr := (runFiles L files (ok ++ bad :: rest) w).2.cerr
                |> put prog |> put ": " |> put e |> put "\n" }) := by
    rw [main_cons L files prog _ w hne, hscan]
    rcases hr : runFiles L files (ok ++ bad :: rest) w with ⟨r, w1⟩
    rw [hr] at h1
    simp only at h1
    subst h1
    rfl
  have hcout : (main L files (prog :: (ok ++ bad :: rest)) w).2.cout
      = (runFiles L files ok w).2.cout := by
    rw [hmain]
    exact h4
  have halone : (main L files (prog :: ok) w).2.cout = (runFiles L files ok w).2.cout := by
    by_cases hnil : ok = []
    · subst hnil
      simp [main, runFiles]
    · have hhead2 : ok.headD "" ≠ "--help" := by
        obtain ⟨a, l, hal⟩ := List.exists_cons_of_ne_nil hnil
        have hmem : a ∈ ok ++ bad :: rest := by rw [hal]; simp
        rw [hal]
        exact (hflags a hmem).2.1
      have hscan2 : flagScan L (ok.headD "") ok w = none :=
        flagScan_none L _ _ w hhead2
          (fun a ha => ⟨(hflags a (List.mem_append_left _ ha)).1,
            (hflags a (List.mem_append_left _ ha)).2.2⟩)
      rw [main_cons L files prog ok w hnil, hscan2]
      rcases hr : runFiles L files ok w with ⟨r, w1⟩
      rw [hr] at h5
      simp only at h5
      subst h5
      rfl
  refine ⟨by rw [hmain], ?_, hcout.trans halone.symm, ?_⟩
  · rw [hmain]
    simp [h3, String.append_assoc]
  · rw [hcout]
    exact runFiles_ok_cout L files ok hok w hw

/-- C14 at the arguments `one.exr three.exr bad.exr one.exr` from program
start: `cout` holds the text of `one.exr` followed by the text of
`three.exr`. -/
theorem main_failure_keeps_earlier_output_witness :
    (∀ a ∈ ["one.exr", "three.exr"] ++ "bad.exr" :: ["one.exr"],
        a ≠ "-h" ∧ a ≠ "--help" ∧ a ≠ "--version")
    ∧ (∀ f ∈ ["one.exr", "three.exr"], ∃ inp, sampleFiles f = Except.ok inp)
    ∧ sampleFiles "bad.exr" = Except.error "Cannot open image file \"bad.exr\"."
    ∧ World.init.cout.basefield = Basefield.dec
    ∧ (main sampleLib sampleFiles
        ("exrheader" :: (["one.exr", "three.exr"] ++ "bad.exr" :: ["one.exr"])) World.init).1 = 1
    ∧ (main sampleLib sampleFiles
        ("exrheader" :: (["one.exr", "three.exr"] ++ "bad.exr" :: ["one.exr"]))
        World.init).2.cerr.out
        = World.init.cerr.out
          ++ ("exrheader" ++ ": " ++ "Cannot open image file \"bad.exr\"." ++ "\n")
    ∧ (main sampleLib sampleFiles
        ("exrheader" :: (["one.exr", "three.exr"] ++ "bad.exr" :: ["one.exr"]))
        World.init).2.cout
        = (main sampleLib sampleFiles ("exrheader" :: ["one.exr", "three.exr"]) World.init).2.cout
    ∧ (main sampleLib sampleFiles
        ("exrheader" :: (["one.exr", "three.exr"] ++ "bad.exr" :: ["one.exr"]))
        World.init).2.cout.out
        = World.init.cout.out
          ++ String.join (["one.exr", "three.exr"].map
              (fun f => (printInfo sampleLib sampleFiles f World.init).2.cout.out)) :=
  ⟨by decide,
   by simp [sampleFiles],
   by simp [sampleFiles],
   rfl,
   main_failure_keeps_earlier_output sampleLib sampleFiles "exrheader" ["one.exr", "three.exr"]
     "bad.exr" ["one.exr"] "Cannot open image file \"bad.exr\"." World.init (by decide)
     (by simp [sampleFiles]) (by simp [sampleFiles]) rfl⟩

/-! ## Decimal numerals can be read back -/

theorem decFold_shift (ys : List Char) (a : Nat) :
    List.foldl (fun acc c => acc * 10 + (c.toNat - 48)) a ys
      = a * 10 ^ ys.length + decValue ys := by
  induction ys generalizing a with
  | nil => simp [decValue]
  | cons y rest ih =>
    simp only [decValue, List.foldl_cons, List.length_cons]
    rw [ih (a * 10 + (y.toNat - 48)), ih (0 * 10 + (y.toNat - 48))]
    ring

theorem decValue_cons (y : Char) (rest : List Char) :
    decValue (y :: rest) = (y.toNat - 48) * 10 ^ rest.length + decValue rest := by
  rw [decValue, List.foldl_cons, decFold_shift]
  ring

theorem digitChar_toNat (m : Nat) (hm : m < 10) : (Nat.digitChar m).toNat - 48 = m := by
  interval_cases m <;> rfl

theorem isDigit_digitChar (m : Nat) (hm : m < 10) : (Nat.digitChar m).isDigit = true := by
  interval_cases m <;> rfl

/-- Reading back what `Nat.toDigitsCore` writes in radix 10, given fuel above
the number: the number, shifted past the digits already accumulated. -/
theorem decValue_toDigitsCore (fuel : Nat) :
    ∀ (n : Nat) (acc : List Char), n < fuel →
      decValue (Nat.toDigitsCore 10 fuel n acc) = n * 10 ^ acc.length + decValue acc := by
  induction fuel with
  | zero => intro n acc h; omega
  | succ fuel ih =>
    intro n acc hn
    have hmod : (Nat.digitChar (n % 10)).toNat - 48 = n % 10 :=
      digitChar_toNat _ (Nat.mod_lt n (by decide))
    simp only [Nat.toDigitsCore]
    split_ifs with hq
    · rw [decValue_cons, hmod]
      have hlt : n % 10 = n := by omega
      rw [hlt]
    · rw [ih (n / 10) _ (by omega), decValue_cons, hmod, List.length_cons, pow_succ]
      have hsplit : n = n / 10 * 10 + n % 10 := by omega
      generalize 10 ^ acc.length = k
      generalize decValue acc = d
      nth_rewrite 3 [hsplit]
      ring

theorem decValue_toDigits (n : Nat) : decValue (Nat.toDigits 10 n) = n := by
  rw [Nat.toDigits, decValue_toDigitsCore (n + 1) n [] (by omega)]
  simp [decValue]

theorem toDigitsCore_isDigit (fuel : Nat) :
    ∀ (n : Nat) (acc : List Char), (∀ c ∈ acc, c.isDigit = true) →
      ∀ c ∈ Nat.toDigitsCore 10 fuel n acc, c.isDigit = true := by
  induction fuel with
  | zero => intro n acc hacc; simpa [Nat.toDigitsCore] using hacc
  | succ fuel ih =>
    intro n acc hacc
    have hcons : ∀ c ∈ Nat.digitChar (n % 10) :: acc, c.isDigit = true := by
      intro c hc
      rcases List.mem_cons.1 hc with h | h
      · rw [h]
        exact isDigit_digitChar _ (Nat.mod_lt n (by decide))
      · exact hacc c h
    simp only [Nat.toDigitsCore]
    split_ifs
    · exact hcons
    · exact ih (n / 10) _ hcons

theorem toDigitsCore_length_le (fuel : Nat) :
    ∀ (n : Nat) (acc : List Char), acc.length ≤ (Nat.toDigitsCore 10 fuel n acc).length := by
  induction fuel with
  | zero => intro n acc; simp [Nat.toDigitsCore]
  | succ fuel ih =>
    intro n acc
    simp only [Nat.toDigitsCore]
    split_ifs
    · simp
    · exact Nat.le_trans (by simp) (ih (n / 10) (Nat.digitChar (n % 10) :: acc))

theorem toDigits_ne_nil (n : Nat) : Nat.toDigits 10 n ≠ [] := by
  intro h
  have hlen : (Nat.toDigits 10 n).length = 0 := by rw [h]; rfl
  have hpos : 0 < (Nat.toDigits 10 n).length := by
    unfold Nat.toDigits
    simp only [Nat.toDigitsCore]
    split_ifs
    · simp
    · exact Nat.lt_of_lt_of_le (by simp)
        (toDigitsCore_length_le n (n / 10) [Nat.digitChar (n % 10)])
  omega

theorem toDigits_isDigit (n : Nat) : ∀ c ∈ Nat.toDigits 10 n, c.isDigit = true :=
  toDigitsCore_isDigit (n + 1) n [] (fun c hc => absurd hc (List.not_mem_nil c))

theorem digits_ten_injective {a b : Nat} (h : digits 10 a = digits 10 b) : a = b := by
  have hd : Nat.toDigits 10 a = Nat.toDigits 10 b := by
    have := congrArg String.data h
    simpa [digits] using this
  rw [← decValue_toDigits a, ← decValue_toDigits b, hd]

/-- The first character of a decimal numeral is a minus sign or a digit. -/
theorem decimal_head (v : Int) :
    ∃ c rest, (decimal v).data = c :: rest ∧ (c = '-' ∨ c.isDigit = true) := by
  unfold decimal
  split_ifs with hv
  · exact ⟨'-', (digits 10 v.natAbs).data, by simp [String.data_append], Or.inl rfl⟩
  · obtain ⟨c, rest, hc⟩ := List.exists_cons_of_ne_nil (toDigits_ne_nil v.toNat)
    refine ⟨c, rest, by simpa [digits] using hc, Or.inr (toDigits_isDigit v.toNat c ?_)⟩
    rw [hc]
    exact List.mem_cons_self c rest

/-- A numeral with a minus sign is not a numeral without one. -/
theorem minus_digits_ne_digits (a b : Nat) : "-" ++ digits 10 a ≠ digits 10 b := by
  intro h
  have hd := congrArg String.data h
  simp only [String.data_append, digits] at hd
  have hmem : '-' ∈ Nat.toDigits 10 b := by
    rw [← hd]
    exact List.mem_cons_self _ _
  exact absurd (toDigits_isDigit b '-' hmem) (by decide)

theorem decimal_injective {a b : Int} (h : decimal a = decimal b) : a = b := by
  unfold decimal at h
  split_ifs at h with ha hb hb
  · have := digits_ten_injective (append_cancel_left h)
    omega
  · exact absurd h (minus_digits_ne_digits _ _)
  · exact absurd h.symm (minus_digits_ne_digits _ _)
  · have := digits_ten_injective h
    omega

/-! ## The enumeration formatters are injective -/

theorem lineOrderText_eq (v : Int) :
    lineOrderText v
      = if v = INCREASING_Y then "increasing y"
        else if v = DECREASING_Y then "decreasing y"
        else if v = RANDOM_Y then "random y"
        else decimal v := by
  unfold lineOrderText printLineOrder
  split_ifs <;> simp

theorem pixelTypeText_eq (v : Int) :
    pixelTypeText v
      = if v = UINT then "32-bit unsigned integer"
        else if v = HALF then "16-bit floating-point"
        else if v = FLOAT then "32-bit floating-point"
        else "type " ++ decimal v := by
  unfold pixelTypeText printPixelType
  split_ifs <;> simp

theorem levelModeText_eq (v : Int) :
    levelModeText v
      = if v = ONE_LEVEL then "single level"
        else if v = MIPMAP_LEVELS then "mip-map"
        else if v = RIPMAP_LEVELS then "rip-map"
        else "level mode " ++ decimal v := by
  unfold levelModeText printLevelMode
  split_ifs <;> simp

theorem levelRoundingModeText_eq (v : Int) :
    levelRoundingModeText v
      = if v = ROUND_DOWN then "down"
        else if v = ROUND_UP then "up"
        else "mode " ++ decimal v := by
  unfold levelRoundingModeText printLevelRoundingMode
  split_ifs <;> simp

theorem envmapText_eq (v : Int) :
    envmapText v
      = if v = ENVMAP_LATLONG then "latitude-longitude map"
        else if v = ENVMAP_CUBE then "cube-face map"
        else "map type " ++ decimal v := by
  unfold envmapText printEnvmap
  split_ifs <;> simp

/-- A text whose first character is neither a minus sign nor a digit is not a
decimal numeral. -/
theorem ne_decimal_of_head (t : String) (c : Char) (rest : List Char) (v : Int)
    (ht : t.data = c :: rest) (hminus : c ≠ '-') (hdigit : c.isDigit = false) :
    t ≠ decimal v := by
  intro h
  obtain ⟨d, r, hd, hcase⟩ := decimal_head v
  rw [← h, ht] at hd
  have hcd : c = d := (List.cons.inj hd).1
  rcases hcase with h1 | h2
  · exact hminus (hcd.trans h1)
  · rw [← hcd, hdigit] at h2
    exact Bool.noConfusion h2

theorem lineOrderText_injective {a b : Int} (h : lineOrderText a = lineOrderText b) : a = b := by
  have hi : ∀ v, "increasing y" ≠ decimal v := fun v =>
    ne_decimal_of_head _ 'i' _ v rfl (by decide) (by decide)
  have hd : ∀ v, "decreasing y" ≠ decimal v := fun v =>
    ne_decimal_of_head _ 'd' _ v rfl (by decide) (by decide)
  have hr : ∀ v, "random y" ≠ decimal v := fun v =>
    ne_decimal_of_head _ 'r' _ v rfl (by decide) (by decide)
  rw [lineOrderText_eq, lineOrderText_eq] at h
  split_ifs at h with a0 b0 b1 b2 a1 b0 b1 b2 a2 b0 b1 b2 b0 b1 b2
  all_goals first
    | exact a0.trans b0.symm
    | exact a1.trans b1.symm
    | exact a2.trans b2.symm
    | exact absurd h (by decide)
    | exact absurd h (hi _)
    | exact absurd h (hd _)
    | exact absurd h (hr _)
    | exact absurd h.symm (hi _)
    | exact absurd h.symm (hd _)
    | exact absurd h.symm (hr _)
    | exact decimal_injective h

theorem ne_of_head_ne {t u : String} {c d : Char} (ht : t.data.head? = some c)
    (hu : u.data.head? = some d) (hcd : c ≠ d) : t ≠ u := by
  intro h
  rw [h, hu] at ht
  exact hcd (Option.some.inj ht).symm

theorem pixelTypeText_injective {a b : Int} (h : pixelTypeText a = pixelTypeText b) : a = b := by
  have hl : ∀ v : Int, ("type " ++ decimal v).data.head? = some 't' := fun v => by
    simp [String.data_append]
  rw [pixelTypeText_eq, pixelTypeText_eq] at h
  split_ifs at h with a0 b0 b1 b2 a1 b0 b1 b2 a2 b0 b1 b2 b0 b1 b2
  all_goals first
    | exact a0.trans b0.symm
    | exact a1.trans b1.symm
    | exact a2.trans b2.symm
    | exact absurd h (by decide)
    | exact absurd h (ne_of_head_ne rfl (hl _) (by decide))
    | exact absurd h.symm (ne_of_head_ne rfl (hl _) (by decide))
    | exact decimal_injective (append_cancel_left h)

theorem levelModeText_injective {a b : Int} (h : levelModeText a = levelModeText b) : a = b := by
  have hl : ∀ v : Int, ("level mode " ++ decimal v).data.head? = some 'l' := fun v => by
    simp [String.data_append]
  rw [levelModeText_eq, levelModeText_eq] at h
  split_ifs at h with a0 b0 b1 b2 a1 b0 b1 b2 a2 b0 b1 b2 b0 b1 b2
  all_goals first
    | exact a0.trans b0.symm
    | exact a1.trans b1.symm
    | exact a2.trans b2.symm
    | exact absurd h (by decide)
    | exact absurd h (ne_of_head_ne rfl (hl _) (by decide))
    | exact absurd h.symm (ne_of_head_ne rfl (hl _) (by decide))
    | exact decimal_injective (append_cancel_left h)

theorem levelRoundingModeText_injective {a b : Int}
    (h : levelRoundingModeText a = levelRoundingModeText b) : a = b := by
  have hl : ∀ v : Int, ("mode " ++ decimal v).data.head? = some 'm' := fun v => by
    simp [String.data_append]
  rw [levelRoundingModeText_eq, levelRoundingModeText_eq] at h
  split_ifs at h with a0 b0 b1 a1 b0 b1 b0 b1
  all_goals first
    | exact a0.trans b0.symm
    | exact a1.trans b1.symm
    | exact absurd h (by decide)
    | exact absurd h (ne_of_head_ne rfl (hl _) (by decide))
    | exact absurd h.symm (ne_of_head_ne rfl (hl _) (by decide))
    | exact decimal_injective (append_cancel_left h)

theorem envmapText_injective {a b : Int} (h : envmapText a = envmapText b) : a = b := by
  have hl : ∀ v : Int, ("map type " ++ decimal v).data.head? = some 'm' := fun v => by
    simp [String.data_append]
  rw [envmapText_eq, envmapText_eq] at h
  split_ifs at h with a0 b0 b1 a1 b0 b1 b0 b1
  all_goals first
    | exact a0.trans b0.symm
    | exact a1.trans b1.symm
    | exact absurd h (by decide)
    | exact absurd h (ne_of_head_ne rfl (hl _) (by decide))
    | exact absurd h.symm (ne_of_head_ne rfl (hl _) (by decide))
    | exact decimal_injective (append_cancel_left h)

/-- C16: with the stream in decimal base, each of `printLineOrder`,
`printPixelType`, `printLevelMode`, `printLevelRoundingMode` and `printEnvmap`
is injective as a function from the ordinal, any integer, in the domain of the
enumeration or not, to the text written: two different ordinals never give the
same text. -/
theorem enumeration_formatters_injective (s : OStream) (hb : s.basefield = Basefield.dec) :
    Function.Injective (fun v : Int => (printLineOrder v s).out)
    ∧ Function.Injective (fun v : Int => (printPixelType v s).out)
    ∧ Function.Injective (fun v : Int => (printLevelMode v s).out)
    ∧ Function.Injective (fun v : Int => (printLevelRoundingMode v s).out)
    ∧ Function.Injective (fun v : Int => (printEnvmap v s).out) := by
  refine ⟨?_, ?_, ?_, ?_, ?_⟩
  · intro a b h
    simp only [printLineOrder_out s _ hb] at h
    exact lineOrderText_injective (append_cancel_left h)
  · intro a b h
    simp only [printPixelType_out s _ hb] at h
    exact pixelTypeText_injective (append_cancel_left h)
  · intro a b h
    simp only [printLevelMode_out s _ hb] at h
    exact levelModeText_injective (append_cancel_left h)
  · intro a b h
    simp only [printLevelRoundingMode_out s _ hb] at h
    exact levelRoundingModeText_injective (append_cancel_left h)
  · intro a b h
    simp only [printEnvmap_out s _ hb] at h
    exact envmapText_injective (append_cancel_left h)

/-- C16 on the fresh stream. -/
theorem enumeration_formatters_injective_witness :
    cout0.basefield = Basefield.dec
    ∧ Function.Injective (fun v : Int => (printLineOrder v cout0).out)
    ∧ Function.Injective (fun v : Int => (printPixelType v cout0).out)
    ∧ Function.Injective (fun v : Int => (printLevelMode v cout0).out)
    ∧ Function.Injective (fun v : Int => (printLevelRoundingMode v cout0).out)
    ∧ Function.Injective (fun v : Int => (printEnvmap v cout0).out) :=
  ⟨rfl, enumeration_formatters_injective cout0 rfl⟩

end ExrHeader
